import Mathlib

/-!
Verification development for the flower-order-bot repository, v6 chatbot core
(`src/v6_chat_bot.py`): the `MemoryState` preference memory with its
`update_from_dict` merge/removal semantics, and the deterministic query
compiler `build_sql_from_memory` (filter clauses, seasonality date matching,
and the windowed random-sampling plan).

Python values flowing through `update_from_dict` originate from `json.loads`
on LLM output, so they are JSON values: null, booleans, numbers, strings,
lists, and string-keyed dictionaries.  We embed them as the inductive `Val`
below and embed the mutating method as a state-passing function that also
reports the Python exception raised, if any, together with the state at the
moment of the raise (Python mutates `self` field by field, so an exception
leaves the earlier assignments in place).
-/

namespace V6

/-- JSON-shaped Python values handled by `MemoryState.update_from_dict`
(numbers are embedded as integers; no claim depends on fractional values
inside the update object). -/
inductive Val where
  | none
  | bool (b : Bool)
  | int (n : Int)
  | str (s : String)
  | list (xs : List Val)
  | dict (kvs : List (String × Val))

/-- Python exceptions that `update_from_dict` can raise (all via
`self.budget.update(...)` on a malformed budget value). -/
inductive PyErr where
  | typeError
  | valueError
  | attributeError
deriving DecidableEq

/-- Python truthiness for the JSON-shaped values (`if value:`). -/
def Val.truthy : Val → Bool
  | .none => false
  | .bool b => b
  | .int n => n != 0
  | .str s => !s.isEmpty
  | .list xs => !xs.isEmpty
  | .dict kvs => !kvs.isEmpty

/-- `MemoryState` (src/v6_chat_bot.py lines 77-115).  Fields are dynamically
typed in Python; we keep them as `Val`. -/
structure MemoryState where
  colors : Val
  flower_types : Val
  occasions : Val
  budget : Val
  effort_level : Val
  season : Val
  quantity : Val
  product_type : Val
  color_logic : Val
  exclude_colors : Val
  exclude_flower_types : Val
  exclude_occasions : Val
  exclude_effort_levels : Val
  exclude_product_types : Val

/-- `MemoryState.__init__` (lines 90-114). -/
def MemoryState.init : MemoryState where
  colors := .list []
  flower_types := .list []
  occasions := .list []
  budget := .dict [("min", .none), ("max", .none), ("around", .none)]
  effort_level := .none
  season := .none
  quantity := .none
  product_type := .none
  color_logic := .str "AND"
  exclude_colors := .list []
  exclude_flower_types := .list []
  exclude_occasions := .list []
  exclude_effort_levels := .list []
  exclude_product_types := .list []

/-- Dictionary lookup.  The update object is a Python dict (string keys,
no duplicates); we embed it as an association list and read the first
binding of a key. -/
def lookupKey (data : List (String × Val)) (k : String) : Option Val :=
  (data.find? (fun kv => kv.1 = k)).map (fun kv => kv.2)

/-- The `elif` chain of STEP 1 of `update_from_dict` (lines 165-207):
reset the named field to its empty default.  A field name with no branch
(for example `color_logic`) falls through and changes nothing. -/
def applyRemove (m : MemoryState) (field : String) : MemoryState :=
  if field = "all" then
    { colors := .list []
      flower_types := .list []
      occasions := .list []
      budget := .dict [("min", .none), ("max", .none), ("around", .none)]
      effort_level := .none
      season := .none
      quantity := .none
      product_type := .none
      color_logic := .str "AND"
      exclude_colors := .list []
      exclude_flower_types := .list []
      exclude_occasions := .list []
      exclude_effort_levels := .list []
      exclude_product_types := .list [] }
  else if field = "colors" then { m with colors := .list [] }
  else if field = "flower_types" then { m with flower_types := .list [] }
  else if field = "occasions" then { m with occasions := .list [] }
  else if field = "budget" then
    { m with budget := .dict [("min", .none), ("max", .none), ("around", .none)] }
  else if field = "effort_level" then { m with effort_level := .none }
  else if field = "season" then { m with season := .none }
  else if field = "quantity" then { m with quantity := .none }
  else if field = "product_type" then { m with product_type := .none }
  else if field = "exclude_colors" then { m with exclude_colors := .list [] }
  else if field = "exclude_flower_types" then { m with exclude_flower_types := .list [] }
  else if field = "exclude_occasions" then { m with exclude_occasions := .list [] }
  else if field = "exclude_effort_levels" then { m with exclude_effort_levels := .list [] }
  else if field = "exclude_product_types" then { m with exclude_product_types := .list [] }
  else m

/-- `startsList pat l`: `pat` is an initial segment of `l` (structural form
of Python `str.startswith`). -/
def startsList : List Char → List Char → Bool
  | [], _ => true
  | _ :: _, [] => false
  | a :: as, b :: bs => a = b && startsList as bs

/-- Python `key.startswith(pre)`. -/
def pyStarts (pre k : String) : Bool := startsList pre.toList k.toList

/-- Python `key[n:]`. -/
def pyDrop (n : ℕ) (k : String) : String := String.mk (k.toList.drop n)

/-- STEP 1 of `update_from_dict` (lines 161-207): iterate over the items of
the update and apply every `REMOVE_*` directive (the directive's value is
never inspected by the source). -/
def stepOne (m : MemoryState) (data : List (String × Val)) : MemoryState :=
  data.foldl
    (fun s kv =>
      if pyStarts "REMOVE_" kv.1 then applyRemove s (pyDrop 7 kv.1) else s)
    m

/-- Interpret a Python value as a sequence of key/value pairs, as
`dict.update` does: a dict contributes its items; a list is accepted when
each element is a two-element `[key, value]` list with a string key (the only
pair shape producible by `json.loads`).  Strings and numbers are not valid
pair sequences. -/
def parsePairs : Val → Option (List (String × Val))
  | .dict kvs => some kvs
  | .list xs =>
    xs.foldr
      (fun x acc =>
        match x, acc with
        | .list [.str k, v], some ps => some ((k, v) :: ps)
        | _, _ => Option.none)
      (some [])
  | _ => Option.none

/-- `dict.update` key-by-key merge: bindings of `old` are overwritten in
place by same-keyed bindings of `new`; keys of `new` absent from `old` are
appended. -/
def mergeAssoc (old new : List (String × Val)) : List (String × Val) :=
  old.map (fun kv => (kv.1, (lookupKey new kv.1).getD kv.2)) ++
    new.filter (fun kv => (lookupKey old kv.1).isNone)

/-- `self.budget.update(arg)` (line 222).  If the receiver is not a dict the
attribute lookup fails; if the argument is not a pair sequence, Python raises
(`ValueError` for a string — its characters are length-1 sequences —
`TypeError` for a number or boolean or a list of non-pairs). -/
def dictUpdate (recv arg : Val) : Except PyErr Val :=
  match recv with
  | .dict kvs =>
    match parsePairs arg with
    | some ps => .ok (.dict (mergeAssoc kvs ps))
    | Option.none =>
      match arg with
      | .str _ => .error .valueError
      | _ => .error .typeError
  | _ => .error .attributeError

/-- One guarded assignment of STEP 2/3 (`if "f" in data and data["f"]:`). -/
def setField (data : List (String × Val)) (k : String)
    (f : MemoryState → Val → MemoryState) (m : MemoryState) : MemoryState :=
  match lookupKey data k with
  | some v => if v.truthy then f m v else m
  | Option.none => m

/-- The assignments of `update_from_dict` after the budget merge, in source
order (lines 223-246): effort_level, season, quantity, product_type,
color_logic, then the five exclude fields. -/
def updateAfterBudget (data : List (String × Val)) (m : MemoryState) : MemoryState :=
  setField data "exclude_product_types" (fun s v => { s with exclude_product_types := v })
    (setField data "exclude_effort_levels" (fun s v => { s with exclude_effort_levels := v })
      (setField data "exclude_occasions" (fun s v => { s with exclude_occasions := v })
        (setField data "exclude_flower_types" (fun s v => { s with exclude_flower_types := v })
          (setField data "exclude_colors" (fun s v => { s with exclude_colors := v })
            (setField data "color_logic" (fun s v => { s with color_logic := v })
              (setField data "product_type" (fun s v => { s with product_type := v })
                (setField data "quantity" (fun s v => { s with quantity := v })
                  (setField data "season" (fun s v => { s with season := v })
                    (setField data "effort_level" (fun s v => { s with effort_level := v })
                      m)))))))))

/-- The state reached after STEP 1 and the colors, flower_types and
occasions assignments (lines 214-219), from which the budget merge reads
`self.budget`. -/
def prefixState (m : MemoryState) (data : List (String × Val)) : MemoryState :=
  setField data "occasions" (fun s v => { s with occasions := v })
    (setField data "flower_types" (fun s v => { s with flower_types := v })
      (setField data "colors" (fun s v => { s with colors := v }) (stepOne m data)))

/-- `MemoryState.update_from_dict` (lines 142-246): STEP 1 applies the
removal directives; STEP 2/3 then assign each present, truthy field in
source order (colors, flower_types, occasions, budget merge, effort_level,
season, quantity, product_type, color_logic, exclude fields).  The second
component reports the raised Python exception, if any; in that case the
first component is the state at the moment of the raise, with the fields
assigned before the failing budget merge already mutated. -/
def updateFromDict (m0 : MemoryState) (data : List (String × Val)) :
    MemoryState × Option PyErr :=
  let m2 := prefixState m0 data
  match lookupKey data "budget" with
  | some v =>
    if v.truthy then
      match dictUpdate m2.budget v with
      | .ok b => (updateAfterBudget data { m2 with budget := b }, Option.none)
      | .error e => (m2, some e)
    else (updateAfterBudget data m2, Option.none)
  | Option.none => (updateAfterBudget data m2, Option.none)

/-!
## Query compiler semantics

`build_sql_from_memory` (lines 676-1019) reads the memory fields at their
documented types (lists of strings, a min/max/around budget dict of numbers,
optional strings) and builds a SQL string.  We give that query a direct
semantics: `MemoryView` is the memory snapshot at those types, `Row` is a
catalog row of the `flowers` table (nullable columns are `Option`), `SqlB`
is SQL's three-valued boolean, and `memFilter` evaluates the generated WHERE
clause on a row.  `planResult` evaluates the full window-sampling query.

Two external inputs are kept as parameters: `cmap`, the
`COLOR_MAPPING["color_categories"]` table loaded from `data/color_mapping.json`
(a data file not present in the sources), and `pdate`, the text-to-(month,
day) resolution `parse_season_to_date` (regex-based; no claim depends on its
internals).  All theorems hold for every value of both parameters.
-/

/-- SQL three-valued truth value. -/
inductive SqlB where
  | tt
  | ff
  | null
deriving DecidableEq

/-- SQL `AND`. -/
def sAnd : SqlB → SqlB → SqlB
  | .ff, _ => .ff
  | _, .ff => .ff
  | .tt, .tt => .tt
  | _, _ => .null

/-- SQL `OR`. -/
def sOr : SqlB → SqlB → SqlB
  | .tt, _ => .tt
  | _, .tt => .tt
  | .ff, .ff => .ff
  | _, _ => .null

/-- SQL `NOT`. -/
def sNot : SqlB → SqlB
  | .tt => .ff
  | .ff => .tt
  | .null => .null

/-- `" AND ".join` of condition strings, evaluated (`tt` is a two-sided
identity of `sAnd`, and `sAnd` is associative, so the fold direction is
immaterial); the empty conjunction is SQL `TRUE`, matching the
`where_clause = "TRUE"` fallback at line 976. -/
def sAndJoin (l : List SqlB) : SqlB := l.foldr sAnd .tt

/-- `" OR ".join` of condition strings, evaluated. -/
def sOrJoin (l : List SqlB) : SqlB := l.foldr sOr .ff

/-- ASCII lowercasing of one character (Python `str.lower()` on the ASCII
range; the catalog and extractor values are ASCII). -/
def charLower (c : Char) : Char :=
  if 65 ≤ c.toNat ∧ c.toNat ≤ 90 then Char.ofNat (c.toNat + 32) else c

/-- Python `str.lower()`. -/
def lowerStr (s : String) : String := String.mk (s.toList.map charLower)

/-- `hasSub l pat`: `pat` occurs contiguously inside `l`. -/
def hasSub : List Char → List Char → Bool
  | [], pat => pat.isEmpty
  | c :: cs, pat => startsList pat (c :: cs) || hasSub cs pat

/-- Substring test, used both for Python's `in` on strings and for the
semantics of SQL `LIKE` with a pattern of the shape `%text%`. -/
def strHas (s pat : String) : Bool := hasSub s.toList pat.toList

/-- A catalog row of the `flowers` table restricted to the columns the
generated query reads.  `unique_id` is the primary key (non-null);
every other column is nullable. -/
structure Row where
  unique_id : String
  product_name : Option String
  variant_name : Option String
  variant_price : Option ℚ
  colors_raw : Option String
  has_red : Option Bool
  has_pink : Option Bool
  has_white : Option Bool
  has_yellow : Option Bool
  has_orange : Option Bool
  has_purple : Option Bool
  has_blue : Option Bool
  has_green : Option Bool
  group_category : Option String
  recipe_metafield : Option String
  product_type_all_flowers : Option String
  holiday_occasion : Option String
  diy_level : Option String
  is_year_round : Option Bool
  season_start_month : Option ℤ
  season_start_day : Option ℤ
  season_end_month : Option ℤ
  season_end_day : Option ℤ
  season_range_2_start_month : Option ℤ
  season_range_2_start_day : Option ℤ
  season_range_2_end_month : Option ℤ
  season_range_2_end_day : Option ℤ
  season_range_3_start_month : Option ℤ
  season_range_3_start_day : Option ℤ
  season_range_3_end_month : Option ℤ
  season_range_3_end_day : Option ℤ
deriving DecidableEq

/-- `LOWER(col) LIKE '%pat%'` where `pat` is already lowercased text
containing no wildcard characters: `NULL` on a null column, otherwise a
substring test.  (The source escapes single quotes in some patterns before
splicing them into the SQL literal; at evaluation time the doubled quote
denotes the original character, so the effective pattern is the unescaped
text — the string-level builders below keep the escaping.) -/
def likeC (col : Option String) (pat : String) : SqlB :=
  match col with
  | some s => if strHas (lowerStr s) pat then .tt else .ff
  | Option.none => .null

/-- `LOWER(col) NOT LIKE '%pat%'`. -/
def notLikeC (col : Option String) (pat : String) : SqlB := sNot (likeC col pat)

/-- `col = true` on a nullable boolean column. -/
def flagTrue (col : Option Bool) : SqlB :=
  match col with
  | some b => if b then .tt else .ff
  | Option.none => .null

/-- `col = false` on a nullable boolean column. -/
def flagFalse (col : Option Bool) : SqlB :=
  match col with
  | some b => if b then .ff else .tt
  | Option.none => .null

/-- `col IS NOT NULL`. -/
def isNotNull {α : Type} (col : Option α) : SqlB :=
  match col with
  | some _ => .tt
  | Option.none => .ff

/-- `col < x` on a nullable numeric column. -/
def numLt (col : Option ℚ) (x : ℚ) : SqlB :=
  match col with
  | some p => if p < x then .tt else .ff
  | Option.none => .null

/-- `col >= x` on a nullable numeric column. -/
def numGe (col : Option ℚ) (x : ℚ) : SqlB :=
  match col with
  | some p => if x ≤ p then .tt else .ff
  | Option.none => .null

/-- `col BETWEEN a AND b` on a nullable numeric column. -/
def numBetween (col : Option ℚ) (a b : ℚ) : SqlB :=
  match col with
  | some p => if a ≤ p ∧ p ≤ b then .tt else .ff
  | Option.none => .null

/-- `col = 'v'` on a nullable text column. -/
def strEqV (col : Option String) (v : String) : SqlB :=
  match col with
  | some s => if s = v then .tt else .ff
  | Option.none => .null

/-- `col != 'v'` on a nullable text column. -/
def strNeV (col : Option String) (v : String) : SqlB :=
  match col with
  | some s => if s = v then .ff else .tt
  | Option.none => .null

/-- `col < v` on a nullable integer column. -/
def intLt (col : Option ℤ) (v : ℤ) : SqlB :=
  match col with
  | some a => if a < v then .tt else .ff
  | Option.none => .null

/-- `col = v` on a nullable integer column. -/
def intEq (col : Option ℤ) (v : ℤ) : SqlB :=
  match col with
  | some a => if a = v then .tt else .ff
  | Option.none => .null

/-- `col <= v` on a nullable integer column. -/
def intLe (col : Option ℤ) (v : ℤ) : SqlB :=
  match col with
  | some a => if a ≤ v then .tt else .ff
  | Option.none => .null

/-- `col > v` on a nullable integer column. -/
def intGt (col : Option ℤ) (v : ℤ) : SqlB :=
  match col with
  | some a => if v < a then .tt else .ff
  | Option.none => .null

/-- `col >= v` on a nullable integer column. -/
def intGe (col : Option ℤ) (v : ℤ) : SqlB :=
  match col with
  | some a => if v ≤ a then .tt else .ff
  | Option.none => .null

/-- One availability-range test of `build_seasonality_condition`
(lines 646-659): the event date is not before the range start and not after
the range end. -/
def rangeCond (sm sd em2 ed2 : Option ℤ) (eventMonth eventDay : ℤ) : SqlB :=
  sAnd
    (sOr (intLt sm eventMonth) (sAnd (intEq sm eventMonth) (intLe sd eventDay)))
    (sOr (intGt em2 eventMonth) (sAnd (intEq em2 eventMonth) (intGe ed2 eventDay)))

/-- `build_seasonality_condition` (lines 622-674), evaluated on a row:
year-round, or the event date inside any of the three stored ranges
(`sOr` is associative, so the grouping of the OR chain is immaterial). -/
def buildSeasonalityCondition (eventMonth eventDay : ℤ) (row : Row) : SqlB :=
  sOr (flagTrue row.is_year_round)
    (sOr
      (rangeCond row.season_start_month row.season_start_day
        row.season_end_month row.season_end_day eventMonth eventDay)
      (sOr
        (rangeCond row.season_range_2_start_month row.season_range_2_start_day
          row.season_range_2_end_month row.season_range_2_end_day eventMonth eventDay)
        (rangeCond row.season_range_3_start_month row.season_range_3_start_day
          row.season_range_3_end_month row.season_range_3_end_day eventMonth eventDay)))

/-- The memory snapshot at the field types `build_sql_from_memory` reads. -/
structure BudgetView where
  min : Option ℚ
  max : Option ℚ
  around : Option ℚ

/-- See `BudgetView`. -/
structure MemoryView where
  colors : List String
  flower_types : List String
  occasions : List String
  budget : BudgetView
  effort_level : Option String
  season : Option String
  quantity : Option String
  product_type : Option String
  color_logic : String
  exclude_colors : List String
  exclude_flower_types : List String
  exclude_occasions : List String
  exclude_effort_levels : List String
  exclude_product_types : List String

/-- Truthiness of an optional-string memory field (`if memory.season:`). -/
def optTruthy (o : Option String) : Bool :=
  match o with
  | some s => !s.isEmpty
  | Option.none => false

/-- Map a color-mapping category name to its boolean-flag condition
(lines 756-771); categories outside the eight known colors produce no
condition. -/
def catFlagCond (row : Row) (category : String) : Option SqlB :=
  if category = "red" then some (flagTrue row.has_red)
  else if category = "pink" then some (flagTrue row.has_pink)
  else if category = "white" then some (flagTrue row.has_white)
  else if category = "yellow" then some (flagTrue row.has_yellow)
  else if category = "orange" then some (flagTrue row.has_orange)
  else if category = "purple" then some (flagTrue row.has_purple)
  else if category = "blue" then some (flagTrue row.has_blue)
  else if category = "green" then some (flagTrue row.has_green)
  else Option.none

/-- Resolution of one requested color to its evaluated condition
(lines 722-778): family phrases, the eight flag colors, the JSON mapping
(`cmap`), then the `colors_raw` substring fallback.  `Option.none` means the
colour contributed no condition (found in the mapping under a category with
no boolean flag). -/
def colorCond (cmap : List (String × List String)) (row : Row) (c : String) :
    Option SqlB :=
  let cl := lowerStr c
  if strHas cl "cool colors" || strHas cl "cool tones" then
    some (sOr (flagTrue row.has_blue) (sOr (flagTrue row.has_purple) (flagTrue row.has_green)))
  else if strHas cl "warm colors" || strHas cl "warm tones" then
    some (sOr (flagTrue row.has_red) (sOr (flagTrue row.has_orange) (flagTrue row.has_yellow)))
  else if strHas cl "neutral colors" || strHas cl "neutral tones" then
    some (sOr (flagTrue row.has_white) (flagTrue row.has_pink))
  else if cl = "red" then some (flagTrue row.has_red)
  else if cl = "pink" then some (flagTrue row.has_pink)
  else if cl = "white" then some (flagTrue row.has_white)
  else if cl = "yellow" then some (flagTrue row.has_yellow)
  else if cl = "orange" then some (flagTrue row.has_orange)
  else if cl = "purple" then some (flagTrue row.has_purple)
  else if cl = "blue" then some (flagTrue row.has_blue)
  else if cl = "green" then some (flagTrue row.has_green)
  else
    match cmap.find? (fun p => p.2.contains cl || cl = p.1) with
    | some p => catFlagCond row p.1
    | Option.none => some (likeC row.colors_raw cl)

/-- Resolution of one excluded color (lines 793-823): negated flag tests,
phrases become conjunctions of `= false`, unknown colors become
`NOT LIKE` on `colors_raw` (the exclusion path has no mapping lookup). -/
def excludeColorCond (row : Row) (c : String) : SqlB :=
  let cl := lowerStr c
  if strHas cl "cool colors" || strHas cl "cool tones" then
    sAnd (flagFalse row.has_blue) (sAnd (flagFalse row.has_purple) (flagFalse row.has_green))
  else if strHas cl "warm colors" || strHas cl "warm tones" then
    sAnd (flagFalse row.has_red) (sAnd (flagFalse row.has_orange) (flagFalse row.has_yellow))
  else if strHas cl "neutral colors" || strHas cl "neutral tones" then
    sAnd (flagFalse row.has_white) (flagFalse row.has_pink)
  else if cl = "red" then flagFalse row.has_red
  else if cl = "pink" then flagFalse row.has_pink
  else if cl = "white" then flagFalse row.has_white
  else if cl = "yellow" then flagFalse row.has_yellow
  else if cl = "orange" then flagFalse row.has_orange
  else if cl = "purple" then flagFalse row.has_purple
  else if cl = "blue" then flagFalse row.has_blue
  else if cl = "green" then flagFalse row.has_green
  else notLikeC row.colors_raw cl

/-- The color filter conditions of one memory (line 721-778): resolutions of
the requested colors, in order, dropping colors that contribute nothing. -/
def colorConds (cmap : List (String × List String)) (m : MemoryView) (row : Row) :
    List SqlB :=
  m.colors.filterMap (colorCond cmap row)

/-- The color condition appended at line 786, if any: the per-color tests
joined by `color_logic`, conjoined with `colors_raw IS NOT NULL`. -/
def colorsPiece (cmap : List (String × List String)) (m : MemoryView) (row : Row) :
    List SqlB :=
  if m.colors.isEmpty then []
  else
    let conds := colorConds cmap m row
    if conds.isEmpty then []
    else
      let clause := if m.color_logic = "AND" then sAndJoin conds else sOrJoin conds
      [sAnd clause (isNotNull row.colors_raw)]

/-- The exclude-color condition appended at line 827: the negated per-color
tests joined by `AND`, independently of `color_logic`. -/
def exclColorsPiece (m : MemoryView) (row : Row) : List SqlB :=
  if m.exclude_colors.isEmpty then []
  else [sAndJoin (m.exclude_colors.map (excludeColorCond row))]

/-- One flower-type test (lines 838-843): substring match in any of the four
descriptive columns. -/
def flowerTypeCond (row : Row) (f : String) : SqlB :=
  let fl := lowerStr f
  sOr (likeC row.group_category fl)
    (sOr (likeC row.recipe_metafield fl)
      (sOr (likeC row.product_type_all_flowers fl) (likeC row.product_name fl)))

/-- The flower-type condition appended at line 846: per-type tests joined by
`OR`. -/
def flowerPiece (m : MemoryView) (row : Row) : List SqlB :=
  if m.flower_types.isEmpty then []
  else [sOrJoin (m.flower_types.map (flowerTypeCond row))]

/-- One excluded-flower-type test (lines 855-859): the substring absent from
all four descriptive columns. -/
def exclFlowerTypeCond (row : Row) (f : String) : SqlB :=
  let fl := lowerStr f
  sAnd (notLikeC row.group_category fl)
    (sAnd (notLikeC row.recipe_metafield fl)
      (sAnd (notLikeC row.product_type_all_flowers fl) (notLikeC row.product_name fl)))

/-- The exclude-flower-type condition appended at line 863. -/
def exclFlowerPiece (m : MemoryView) (row : Row) : List SqlB :=
  if m.exclude_flower_types.isEmpty then []
  else [sAndJoin (m.exclude_flower_types.map (exclFlowerTypeCond row))]

/-- The occasion condition appended at line 882.  The generated string is
`(L1 OR ... OR Ln AND holiday_occasion IS NOT NULL)`; SQL `AND` binds
tighter than `OR`, so only the last `LIKE` is conjoined with the null
check.  (Both branches of the known-occasion lookup at lines 875-879 build
the same `LIKE`.) -/
def occJoin (notnull : SqlB) : List SqlB → SqlB
  | [] => .tt
  | [c] => sAnd c notnull
  | c :: rest => sOr c (occJoin notnull rest)

/-- See `occJoin`; the per-occasion `LIKE` tests in order. -/
def occasionsPiece (m : MemoryView) (row : Row) : List SqlB :=
  if m.occasions.isEmpty then []
  else
    [occJoin (isNotNull row.holiday_occasion)
      (m.occasions.map (fun o => likeC row.holiday_occasion (lowerStr o)))]

/-- The exclude-occasion condition appended at line 893: `NOT LIKE` tests
joined by `AND`, with no null handling. -/
def exclOccasionsPiece (m : MemoryView) (row : Row) : List SqlB :=
  if m.exclude_occasions.isEmpty then []
  else
    [sAndJoin
      (m.exclude_occasions.map (fun o => notLikeC row.holiday_occasion (lowerStr o)))]

/-- Budget conditions (lines 901-907), one per set bound, in source order
max, min, around. -/
def budgetPieces (m : MemoryView) (row : Row) : List SqlB :=
  (match m.budget.max with
    | some x => [sAnd (numLt row.variant_price x) (isNotNull row.variant_price)]
    | Option.none => []) ++
  (match m.budget.min with
    | some x => [sAnd (numGe row.variant_price x) (isNotNull row.variant_price)]
    | Option.none => []) ++
  (match m.budget.around with
    | some a =>
      [sAnd (numBetween row.variant_price (a - 20) (a + 20)) (isNotNull row.variant_price)]
    | Option.none => [])

/-- Effort-level condition (line 912). -/
def effortPiece (m : MemoryView) (row : Row) : List SqlB :=
  match m.effort_level with
  | some e =>
    if e.isEmpty then [] else [sAnd (strEqV row.diy_level e) (isNotNull row.diy_level)]
  | Option.none => []

/-- Exclude-effort condition (lines 917-923): inequalities joined by `AND`. -/
def exclEffortPiece (m : MemoryView) (row : Row) : List SqlB :=
  if m.exclude_effort_levels.isEmpty then []
  else [sAndJoin (m.exclude_effort_levels.map (fun e => strNeV row.diy_level e))]

/-- Product-type condition (lines 928-934). -/
def productPiece (m : MemoryView) (row : Row) : List SqlB :=
  match m.product_type with
  | some p =>
    if p.isEmpty then []
    else
      let pl := lowerStr p
      [sAnd (sOr (likeC row.product_name pl) (likeC row.product_type_all_flowers pl))
        (sOr (isNotNull row.product_name) (isNotNull row.product_type_all_flowers))]
  | Option.none => []

/-- Exclude-product-type condition (lines 939-949). -/
def exclProductPiece (m : MemoryView) (row : Row) : List SqlB :=
  if m.exclude_product_types.isEmpty then []
  else
    [sAndJoin
      (m.exclude_product_types.map (fun p =>
        let pl := lowerStr p
        sAnd (notLikeC row.product_name pl) (notLikeC row.product_type_all_flowers pl)))]

/-- `re.search(r'\d+', s)` — the first maximal run of digits, if any
(lines 956-959). -/
def firstDigitRun (s : String) : Option String :=
  let ds := (s.toList.dropWhile (fun c => !c.isDigit)).takeWhile Char.isDigit
  if ds.isEmpty then Option.none else some (String.mk ds)

/-- Quantity condition (lines 954-960): the extracted number as a substring
of `variant_name`; skipped entirely when no digits occur. -/
def quantityPiece (m : MemoryView) (row : Row) : List SqlB :=
  match m.quantity with
  | some q =>
    if q.isEmpty then []
    else
      match firstDigitRun q with
      | some n => [sAnd (likeC row.variant_name n) (isNotNull row.variant_name)]
      | Option.none => []
  | Option.none => []

/-- Seasonality condition (lines 965-971): resolve the season text via
`pdate` (the `parse_season_to_date` collaborator) and, when both components
are truthy, append the availability clause. -/
def seasonPiece (pdate : String → Option (ℤ × ℤ)) (m : MemoryView) (row : Row) :
    List SqlB :=
  match m.season with
  | some s =>
    if s.isEmpty then []
    else
      match pdate s with
      | some (em, ed) =>
        if em ≠ 0 ∧ ed ≠ 0 then [buildSeasonalityCondition em ed row] else []
      | Option.none => []
  | Option.none => []

/-- The list of WHERE conditions built by `build_sql_from_memory`, in the
order they are appended (lines 711-971). -/
def conditionsVal (cmap : List (String × List String))
    (pdate : String → Option (ℤ × ℤ)) (m : MemoryView) (row : Row) : List SqlB :=
  colorsPiece cmap m row ++ exclColorsPiece m row ++
    flowerPiece m row ++ exclFlowerPiece m row ++
    occasionsPiece m row ++ exclOccasionsPiece m row ++
    budgetPieces m row ++ effortPiece m row ++ exclEffortPiece m row ++
    productPiece m row ++ exclProductPiece m row ++
    quantityPiece m row ++ seasonPiece pdate m row

/-- The generated WHERE clause, evaluated on a row (line 976: conditions
joined by `AND`, or `TRUE` when none). -/
def memFilter (cmap : List (String × List String))
    (pdate : String → Option (ℤ × ℤ)) (m : MemoryView) (row : Row) : SqlB :=
  sAndJoin (conditionsVal cmap pdate m row)

/-- `SELECT DISTINCT ON (product_name)` with no inner ordering: one
representative row per product name; we keep the first, in catalog order
(SQL `NULL`s are grouped together by `DISTINCT ON`, as `Option.none` is
here). -/
def distinctAux (seen : List (Option String)) : List Row → List Row
  | [] => []
  | r :: t =>
    if r.product_name ∈ seen then distinctAux seen t
    else r :: distinctAux (r.product_name :: seen) t

/-- See `distinctAux`. -/
def distinctOnName (l : List Row) : List Row := distinctAux [] l

/-- Computable lexicographic comparison of character lists (the text order
used for `ORDER BY unique_id`; any realisation of the SQL total order on the
key gives the rank assignment). -/
def charListLe : List Char → List Char → Bool
  | [], _ => true
  | _ :: _, [] => false
  | a :: as, b :: bs =>
    if a.toNat < b.toNat then true
    else if b.toNat < a.toNat then false
    else charListLe as bs

/-- See `charListLe`. -/
def strLe (a b : String) : Bool := charListLe a.toList b.toList

/-- Insertion step of the ordering by `unique_id`. -/
def insertLe (a : Row) : List Row → List Row
  | [] => [a]
  | b :: t => if strLe a.unique_id b.unique_id then a :: b :: t else b :: insertLe a t

/-- `ROW_NUMBER() OVER (ORDER BY unique_id)` rank assignment: sort the
distinct rows by their key (insertion sort; any sort realises the SQL
ordering). -/
def orderByUid : List Row → List Row
  | [] => []
  | a :: t => insertLe a (orderByUid t)

/-- Attach ranks `n+1, n+2, ...` to a list, as `ROW_NUMBER` does starting
from `n = 0`. -/
def rankedFrom {α : Type} (n : ℕ) : List α → List (ℕ × α)
  | [] => []
  | a :: t => (n + 1, a) :: rankedFrom (n + 1) t

/-- The filtered, distinct-by-product rows (the `filtered` CTE,
lines 987-998): catalog rows on which the WHERE clause evaluates to SQL
true, one per product name. -/
def filteredRows (cmap : List (String × List String))
    (pdate : String → Option (ℤ × ℤ)) (m : MemoryView) (cat : List Row) : List Row :=
  distinctOnName (cat.filter (fun r => decide (memFilter cmap pdate m r = SqlB.tt)))

/-- The `numbered` CTE's row order (lines 999-1005). -/
def sortedRows (cmap : List (String × List String))
    (pdate : String → Option (ℤ × ℤ)) (m : MemoryView) (cat : List Row) : List Row :=
  orderByUid (filteredRows cmap pdate m cat)

/-- The random offset of the `params` CTE (line 1008):
`FLOOR(random() * GREATEST(0, c - 6))::int`, with `random()` modelled as an
arbitrary rational input `u` with `0 ≤ u < 1`.  The floor of
`u * GREATEST(0, c - 6)` is computed as the integer division
`(u.num * GREATEST(0, c - 6)) / u.den` (an executable form;
`randOffset_eq` below proves it equal to `⌊u * GREATEST(0, c - 6)⌋`). -/
def randOffset (c : ℕ) (u : ℚ) : ℤ :=
  (u.num * max 0 ((c : ℤ) - 6)) / (u.den : ℤ)

/-- The rows returned by the generated query (lines 1013-1016): the ranked
rows whose row number `rn` satisfies `r < rn ≤ r + 6`. -/
def planResult (cmap : List (String × List String))
    (pdate : String → Option (ℤ × ℤ)) (m : MemoryView) (cat : List Row) (u : ℚ) :
    List Row :=
  let s := sortedRows cmap pdate m cat
  let r := randOffset s.length u
  ((rankedFrom 0 s).filter
      (fun p => decide (r < (p.1 : ℤ)) && decide ((p.1 : ℤ) ≤ r + 6))).map Prod.snd

/-!
## The generated SQL text

The same `build_sql_from_memory` branches, at the string level, for the
claims about escaping.  `sq` is the single-quote character (written via its
code point so that the SQL literals below are built explicitly). -/

/-- The single-quote character as a string. -/
def sq : String := String.singleton (Char.ofNat 39)

/-- Python `s.replace("'", "''")` (lines 777, 822, 872, 889). -/
def escapeQuotes (s : String) : String :=
  String.mk (s.toList.flatMap (fun c => if c = Char.ofNat 39 then [c, c] else [c]))

/-- Python `sep.join(items)`. -/
def joinSep (sep : String) : List String → String
  | [] => ""
  | [x] => x
  | x :: rest => x ++ sep ++ joinSep sep rest

/-- Decimal rendering of a numeric budget bound (integral values render as
Python prints ints; no claim depends on non-integral rendering). -/
def numLit (q : ℚ) : String :=
  if q.den = 1 then toString q.num else toString q

/-- The color fallback condition string (line 778), with quotes escaped. -/
def colorFallbackStr (c : String) : String :=
  "LOWER(colors_raw) LIKE " ++ sq ++ "%" ++ escapeQuotes (lowerStr c) ++ "%" ++ sq

/-- The exclude-color fallback condition string (line 823). -/
def exclColorFallbackStr (c : String) : String :=
  "LOWER(colors_raw) NOT LIKE " ++ sq ++ "%" ++ escapeQuotes (lowerStr c) ++ "%" ++ sq

/-- String form of `catFlagCond`. -/
def catFlagStr (category : String) : Option String :=
  if category = "red" then some "has_red = true"
  else if category = "pink" then some "has_pink = true"
  else if category = "white" then some "has_white = true"
  else if category = "yellow" then some "has_yellow = true"
  else if category = "orange" then some "has_orange = true"
  else if category = "purple" then some "has_purple = true"
  else if category = "blue" then some "has_blue = true"
  else if category = "green" then some "has_green = true"
  else Option.none

/-- String form of `colorCond` (lines 722-778). -/
def colorCondStr (cmap : List (String × List String)) (c : String) : Option String :=
  let cl := lowerStr c
  if strHas cl "cool colors" || strHas cl "cool tones" then
    some "(has_blue = true OR has_purple = true OR has_green = true)"
  else if strHas cl "warm colors" || strHas cl "warm tones" then
    some "(has_red = true OR has_orange = true OR has_yellow = true)"
  else if strHas cl "neutral colors" || strHas cl "neutral tones" then
    some "(has_white = true OR has_pink = true)"
  else if cl = "red" then some "has_red = true"
  else if cl = "pink" then some "has_pink = true"
  else if cl = "white" then some "has_white = true"
  else if cl = "yellow" then some "has_yellow = true"
  else if cl = "orange" then some "has_orange = true"
  else if cl = "purple" then some "has_purple = true"
  else if cl = "blue" then some "has_blue = true"
  else if cl = "green" then some "has_green = true"
  else
    match cmap.find? (fun p => p.2.contains cl || cl = p.1) with
    | some p => catFlagStr p.1
    | Option.none => some (colorFallbackStr c)

/-- String form of `excludeColorCond` (lines 793-823). -/
def exclColorCondStr (c : String) : String :=
  let cl := lowerStr c
  if strHas cl "cool colors" || strHas cl "cool tones" then
    "(has_blue = false AND has_purple = false AND has_green = false)"
  else if strHas cl "warm colors" || strHas cl "warm tones" then
    "(has_red = false AND has_orange = false AND has_yellow = false)"
  else if strHas cl "neutral colors" || strHas cl "neutral tones" then
    "(has_white = false AND has_pink = false)"
  else if cl = "red" then "has_red = false"
  else if cl = "pink" then "has_pink = false"
  else if cl = "white" then "has_white = false"
  else if cl = "yellow" then "has_yellow = false"
  else if cl = "orange" then "has_orange = false"
  else if cl = "purple" then "has_purple = false"
  else if cl = "blue" then "has_blue = false"
  else if cl = "green" then "has_green = false"
  else exclColorFallbackStr c

/-- The flower-type condition string (lines 838-843); the lowercased value
is spliced verbatim, with no quote escaping. -/
def flowerTypeCondStr (f : String) : String :=
  let fl := lowerStr f
  "\n                (LOWER(group_category) LIKE " ++ sq ++ "%" ++ fl ++ "%" ++ sq ++
    " OR\n                 LOWER(recipe_metafield) LIKE " ++ sq ++ "%" ++ fl ++ "%" ++ sq ++
    " OR\n                 LOWER(product_type_all_flowers) LIKE " ++ sq ++ "%" ++ fl ++ "%" ++ sq ++
    " OR\n                 LOWER(product_name) LIKE " ++ sq ++ "%" ++ fl ++ "%" ++ sq ++
    ")\n            "

/-- The exclude-flower-type condition string (lines 855-859); verbatim
splice. -/
def exclFlowerTypeCondStr (f : String) : String :=
  let fl := lowerStr f
  "\n                (LOWER(group_category) NOT LIKE " ++ sq ++ "%" ++ fl ++ "%" ++ sq ++
    " AND\n                 LOWER(recipe_metafield) NOT LIKE " ++ sq ++ "%" ++ fl ++ "%" ++ sq ++
    " AND\n                 LOWER(product_type_all_flowers) NOT LIKE " ++ sq ++ "%" ++ fl ++ "%" ++ sq ++
    " AND\n                 LOWER(product_name) NOT LIKE " ++ sq ++ "%" ++ fl ++ "%" ++ sq ++
    ")\n            "

/-- One occasion condition string (line 876), with quotes escaped. -/
def occasionCondStr (o : String) : String :=
  "LOWER(holiday_occasion) LIKE " ++ sq ++ "%" ++ escapeQuotes (lowerStr o) ++ "%" ++ sq

/-- One exclude-occasion condition string (line 890), with quotes escaped. -/
def exclOccasionCondStr (o : String) : String :=
  "LOWER(holiday_occasion) NOT LIKE " ++ sq ++ "%" ++ escapeQuotes (lowerStr o) ++ "%" ++ sq

/-- The effort-level condition string (line 912); verbatim splice. -/
def effortCondStr (e : String) : String :=
  "diy_level = " ++ sq ++ e ++ sq ++ " AND diy_level IS NOT NULL"

/-- One exclude-effort condition string (line 920); verbatim splice. -/
def exclEffortCondStr (e : String) : String :=
  "diy_level != " ++ sq ++ e ++ sq

/-- The product-type condition string (lines 930-934); verbatim splice. -/
def productCondStr (p : String) : String :=
  let pl := lowerStr p
  "\n            (LOWER(product_name) LIKE " ++ sq ++ "%" ++ pl ++ "%" ++ sq ++
    " OR \n             LOWER(product_type_all_flowers) LIKE " ++ sq ++ "%" ++ pl ++ "%" ++ sq ++
    ")\n            AND (product_name IS NOT NULL OR product_type_all_flowers IS NOT NULL)\n        "

/-- One exclude-product-type condition string (lines 943-946); verbatim
splice. -/
def exclProductCondStr (p : String) : String :=
  let pl := lowerStr p
  "\n                (LOWER(product_name) NOT LIKE " ++ sq ++ "%" ++ pl ++ "%" ++ sq ++
    " AND \n                 LOWER(product_type_all_flowers) NOT LIKE " ++ sq ++ "%" ++ pl ++ "%" ++ sq ++
    ")\n            "

/-- One availability-range condition string (lines 653-659). -/
def rangeCondStr (smc sdc emc edc : String) (em ed : ℤ) : String :=
  "\n            (" ++ smc ++ " < " ++ toString em ++ " OR\n             (" ++ smc ++
    " = " ++ toString em ++ " AND " ++ sdc ++ " <= " ++ toString ed ++
    "))\n            AND\n            (" ++ emc ++ " > " ++ toString em ++
    " OR\n             (" ++ emc ++ " = " ++ toString em ++ " AND " ++ edc ++
    " >= " ++ toString ed ++ "))\n        "

/-- `build_seasonality_condition` as a string (lines 661-674). -/
def buildSeasonalityConditionStr (em ed : ℤ) : String :=
  "\n        (\n            is_year_round = TRUE\n            OR (" ++
    rangeCondStr "season_start_month" "season_start_day" "season_end_month"
      "season_end_day" em ed ++
    ")\n            OR (" ++
    rangeCondStr "season_range_2_start_month" "season_range_2_start_day"
      "season_range_2_end_month" "season_range_2_end_day" em ed ++
    ")\n            OR (" ++
    rangeCondStr "season_range_3_start_month" "season_range_3_start_day"
      "season_range_3_end_month" "season_range_3_end_day" em ed ++
    ")\n        )\n    "

/-- The list of WHERE condition strings built by `build_sql_from_memory`,
in append order (string counterpart of `conditionsVal`). -/
def conditionsStr (cmap : List (String × List String))
    (pdate : String → Option (ℤ × ℤ)) (m : MemoryView) : List String :=
  (if m.colors.isEmpty then []
   else
     let conds := m.colors.filterMap (colorCondStr cmap)
     if conds.isEmpty then []
     else
       let clause :=
         if m.color_logic = "AND" then joinSep " AND " conds
         else "(" ++ joinSep " OR " conds ++ ")"
       ["(" ++ clause ++ " AND colors_raw IS NOT NULL)"]) ++
  (if m.exclude_colors.isEmpty then []
   else ["(" ++ joinSep " AND " (m.exclude_colors.map exclColorCondStr) ++ ")"]) ++
  (if m.flower_types.isEmpty then []
   else ["(" ++ joinSep " OR " (m.flower_types.map flowerTypeCondStr) ++ ")"]) ++
  (if m.exclude_flower_types.isEmpty then []
   else ["(" ++ joinSep " AND " (m.exclude_flower_types.map exclFlowerTypeCondStr) ++ ")"]) ++
  (if m.occasions.isEmpty then []
   else
     ["(" ++ joinSep " OR " (m.occasions.map occasionCondStr) ++
       " AND holiday_occasion IS NOT NULL)"]) ++
  (if m.exclude_occasions.isEmpty then []
   else ["(" ++ joinSep " AND " (m.exclude_occasions.map exclOccasionCondStr) ++ ")"]) ++
  (match m.budget.max with
    | some x => ["variant_price < " ++ numLit x ++ " AND variant_price IS NOT NULL"]
    | Option.none => []) ++
  (match m.budget.min with
    | some x => ["variant_price >= " ++ numLit x ++ " AND variant_price IS NOT NULL"]
    | Option.none => []) ++
  (match m.budget.around with
    | some a =>
      ["variant_price BETWEEN " ++ numLit (a - 20) ++ " AND " ++ numLit (a + 20) ++
        " AND variant_price IS NOT NULL"]
    | Option.none => []) ++
  (match m.effort_level with
    | some e => if e.isEmpty then [] else [effortCondStr e]
    | Option.none => []) ++
  (if m.exclude_effort_levels.isEmpty then []
   else ["(" ++ joinSep " AND " (m.exclude_effort_levels.map exclEffortCondStr) ++ ")"]) ++
  (match m.product_type with
    | some p => if p.isEmpty then [] else [productCondStr p]
    | Option.none => []) ++
  (if m.exclude_product_types.isEmpty then []
   else ["(" ++ joinSep " AND " (m.exclude_product_types.map exclProductCondStr) ++ ")"]) ++
  (match m.quantity with
    | some q =>
      if q.isEmpty then []
      else
        match firstDigitRun q with
        | some n =>
          ["LOWER(variant_name) LIKE " ++ sq ++ "%" ++ n ++ "%" ++ sq ++
            " AND variant_name IS NOT NULL"]
        | Option.none => []
    | Option.none => []) ++
  (match m.season with
    | some s =>
      if s.isEmpty then []
      else
        match pdate s with
        | some (em, ed) =>
          if em ≠ 0 ∧ ed ≠ 0 then [buildSeasonalityConditionStr em ed] else []
        | Option.none => []
    | Option.none => [])

/-- The text before the spliced WHERE clause in the final query template
(lines 986-997, after the `.strip()` applied at line 1019). -/
def sqlTemplatePre : String :=
  "WITH filtered AS (\n        -- Step 1: Apply all filters and get distinct products\n" ++
  "        SELECT DISTINCT ON (product_name)\n" ++
  "            unique_id, product_name, variant_name, description_clean, variant_price,\n" ++
  "            colors_raw, diy_level, product_type_all_flowers, group_category,\n" ++
  "            recipe_metafield, holiday_occasion, is_year_round, non_color_options,\n" ++
  "            season_start_month, season_start_day, season_end_month, season_end_day,\n" ++
  "            season_range_2_start_month, season_range_2_start_day, season_range_2_end_month, season_range_2_end_day,\n" ++
  "            season_range_3_start_month, season_range_3_start_day, season_range_3_end_month, season_range_3_end_day\n" ++
  "        FROM flowers\n        WHERE "

/-- The text after the spliced WHERE clause (lines 998-1017, after
`.strip()`). -/
def sqlTemplatePost : String :=
  "\n    ),\n    numbered AS (\n        -- Step 2: Add row numbers and count total rows\n" ++
  "        SELECT f.*,\n               ROW_NUMBER() OVER (ORDER BY unique_id) AS rn,\n" ++
  "               COUNT(*)    OVER ()                    AS c\n        FROM filtered f\n" ++
  "    ),\n    params AS (\n" ++
  "        -- Step 3: Calculate random offset for variety (ensures different results each time)\n" ++
  "        SELECT FLOOR(random() * GREATEST(0, c - 6))::int AS r\n" ++
  "        FROM numbered\n        LIMIT 1\n    )\n" ++
  "    -- Step 4: Return up to 6 products starting from random offset\n" ++
  "    SELECT *\n    FROM numbered n\n    CROSS JOIN params p\n" ++
  "    WHERE n.rn > p.r AND n.rn <= p.r + 6;"

/-- `build_sql_from_memory` (lines 676-1019): the full generated SQL text. -/
def buildSqlFromMemory (cmap : List (String × List String))
    (pdate : String → Option (ℤ × ℤ)) (m : MemoryView) : String :=
  let conds := conditionsStr cmap pdate m
  let whereClause := if conds.isEmpty then "TRUE" else joinSep " AND " conds
  sqlTemplatePre ++ whereClause ++ sqlTemplatePost

/-!
## Lemmas about `update_from_dict`
-/

/-- The `REMOVE_all` branch resets every field, producing the initial
state. -/
theorem applyRemove_all (s : MemoryState) : applyRemove s "all" = MemoryState.init := rfl

/-- STEP 1 is the identity when the update holds no removal directive. -/
theorem stepOne_of_noRemove (data : List (String × Val)) (m : MemoryState)
    (h : ∀ kv ∈ data, pyStarts "REMOVE_" kv.1 = false) : stepOne m data = m := by
  induction data generalizing m with
  | nil => rfl
  | cons a t ih =>
    have ha := h a (List.mem_cons_self a t)
    show List.foldl _ _ (a :: t) = m
    rw [List.foldl_cons]
    simp only [ha, Bool.false_eq_true, if_false]
    exact ih m (fun kv hkv => h kv (List.mem_cons_of_mem a hkv))

/-- Once an update contains `REMOVE_all`, the state STEP 1 produces does not
depend on the state it started from. -/
theorem stepOne_indep (data : List (String × Val)) (v : Val) (m m' : MemoryState)
    (h : ("REMOVE_all", v) ∈ data) : stepOne m data = stepOne m' data := by
  induction data generalizing m m' with
  | nil => cases h
  | cons a t ih =>
    rcases List.mem_cons.1 h with ha | ht
    · subst ha
      show List.foldl _ _ (_ :: t) = List.foldl _ _ (_ :: t)
      rw [List.foldl_cons, List.foldl_cons]
      have h1 : pyStarts "REMOVE_" "REMOVE_all" = true := rfl
      have h2 : pyDrop 7 "REMOVE_all" = "all" := rfl
      simp only [h1, if_true, h2, applyRemove_all]
    · show List.foldl _ _ (a :: t) = List.foldl _ _ (a :: t)
      rw [List.foldl_cons, List.foldl_cons]
      exact ih _ _ ht

/-- A guarded assignment leaves untouched any projection its assignment does
not write. -/
theorem setField_proj (p : MemoryState → Val) (data : List (String × Val))
    (k : String) (f : MemoryState → Val → MemoryState) (m : MemoryState)
    (hf : ∀ s v, p (f s v) = p s) : p (setField data k f m) = p m := by
  unfold setField
  cases lookupKey data k with
  | none => rfl
  | some v =>
    by_cases hv : v.truthy
    · simp [hv, hf]
    · simp [hv]

/-- The value an optional, truthiness-guarded assignment leaves in a field. -/
def applyOpt (o : Option Val) (old : Val) : Val :=
  match o with
  | some v => if v.truthy then v else old
  | Option.none => old

/-- A guarded assignment writes `applyOpt` of the looked-up value into the
projection it assigns. -/
theorem setField_proj_self (p : MemoryState → Val) (data : List (String × Val))
    (k : String) (f : MemoryState → Val → MemoryState) (m : MemoryState)
    (hf : ∀ s v, p (f s v) = v) : p (setField data k f m) = applyOpt (lookupKey data k) (p m) := by
  unfold setField applyOpt
  cases lookupKey data k with
  | none => rfl
  | some v =>
    by_cases hv : v.truthy
    · simp [hv, hf]
    · simp [hv]

/-- A guarded assignment whose key is absent is the identity. -/
theorem setField_of_none (data : List (String × Val)) (k : String)
    (f : MemoryState → Val → MemoryState) (m : MemoryState)
    (h : lookupKey data k = Option.none) : setField data k f m = m := by
  unfold setField
  rw [h]

/-- A key bound by no item of the update looks up to nothing. -/
theorem lookupKey_of_ne (data : List (String × Val)) (k : String)
    (h : ∀ kv ∈ data, kv.1 ≠ k) : lookupKey data k = Option.none := by
  unfold lookupKey
  rw [List.find?_eq_none.2]
  · rfl
  · intro kv hkv
    simp [h kv hkv]

/-- The first three assignments do not touch the budget. -/
theorem prefixState_budget (m : MemoryState) (data : List (String × Val)) :
    (prefixState m data).budget = (stepOne m data).budget := by
  unfold prefixState
  rw [setField_proj MemoryState.budget, setField_proj MemoryState.budget,
    setField_proj MemoryState.budget] <;> intros <;> rfl

/-- The update raises no exception when the budget value, whenever present
and truthy, is a valid pair sequence and the budget field it merges into is
a dict (as it is in every state reachable from `init`). -/
def budgetOkay (m : MemoryState) (data : List (String × Val)) : Prop :=
  ∀ v, lookupKey data "budget" = some v → v.truthy = true →
    (∃ kvs, (stepOne m data).budget = Val.dict kvs) ∧ ∃ ps, parsePairs v = some ps

/-- A key neither a removal directive nor one of the fourteen recognized
fields. -/
def unrecognizedKey (k : String) : Prop :=
  pyStarts "REMOVE_" k = false ∧
    k ∉ ["colors", "flower_types", "occasions", "budget", "effort_level", "season",
      "quantity", "product_type", "color_logic", "exclude_colors",
      "exclude_flower_types", "exclude_occasions", "exclude_effort_levels",
      "exclude_product_types"]

/-!
## Claims C1, C8, C2
-/

/-- C1: the claim states that `update({REMOVE_all: true, colors: ["red"]})`
leaves every field — in particular `colors` — at its empty default because
processing stops after the global reset.  In the source, STEP 2 runs
unconditionally after STEP 1, so `colors` ends as `["red"]`, not empty. -/
theorem claimC1_counterexample :
    ((updateFromDict MemoryState.init
        [("REMOVE_all", Val.bool true), ("colors", Val.list [Val.str "red"])]).1).colors =
      Val.list [Val.str "red"] ∧
    Val.list [Val.str "red"] ≠ Val.list [] := by
  refine ⟨rfl, ?_⟩
  simp

/-- C1 (amended): a `REMOVE_all` directive resets every field to its empty
default before the additive fields of the same update are processed — the
update then proceeds exactly as if applied to a fresh memory, so additive
fields present alongside `REMOVE_all` are applied, not ignored; in
particular `update({REMOVE_all: true, colors: ["red"]})` yields the initial
state with `colors = ["red"]`. -/
theorem claimC1_amended :
    (∀ (m : MemoryState) (data : List (String × Val)) (v : Val),
      ("REMOVE_all", v) ∈ data →
        updateFromDict m data = updateFromDict MemoryState.init data) ∧
    (∀ m : MemoryState,
      (updateFromDict m
          [("REMOVE_all", Val.bool true), ("colors", Val.list [Val.str "red"])]).1 =
        { MemoryState.init with colors := Val.list [Val.str "red"] }) := by
  constructor
  · intro m data v h
    have h1 : prefixState m data = prefixState MemoryState.init data := by
      unfold prefixState
      rw [stepOne_indep data v _ _ h]
    simp only [updateFromDict, h1]
  · intro m
    rfl

/-- C1 witness: the amended theorem applied to a nonempty starting memory
and a concrete update containing the global directive. -/
theorem claimC1_witness :
    updateFromDict { MemoryState.init with colors := Val.list [Val.str "blue"] }
        [("REMOVE_all", Val.bool true), ("occasions", Val.list [Val.str "wedding"])] =
      updateFromDict MemoryState.init
        [("REMOVE_all", Val.bool true), ("occasions", Val.list [Val.str "wedding"])] :=
  claimC1_amended.1 _ _ (Val.bool true) (List.mem_cons_self _ _)

/-- C8: the claim includes `color_logic` among the fields with a working
field-specific removal directive; the `elif` chain of STEP 1 has no
`color_logic` branch, so `REMOVE_color_logic` leaves the field unchanged
instead of resetting it to its default `"AND"`. -/
theorem claimC8_counterexample :
    ((updateFromDict { MemoryState.init with color_logic := Val.str "OR" }
        [("REMOVE_color_logic", Val.bool true)]).1).color_logic = Val.str "OR" ∧
    Val.str "OR" ≠ Val.str "AND" := by
  refine ⟨rfl, ?_⟩
  simp

/-- C8 (amended): every field of `MemoryState` except `color_logic` has a
field-specific removal directive `REMOVE_F` that resets exactly that field
to its empty default (`REMOVE_color_logic` is not recognized; only
`REMOVE_all` restores `color_logic` to `"AND"`), and removal directives are
applied before the additive fields of the same update. -/
theorem claimC8_amended :
    (∀ m : MemoryState, (updateFromDict m [("REMOVE_colors", Val.bool true)]).1 =
      { m with colors := Val.list [] }) ∧
    (∀ m : MemoryState, (updateFromDict m [("REMOVE_flower_types", Val.bool true)]).1 =
      { m with flower_types := Val.list [] }) ∧
    (∀ m : MemoryState, (updateFromDict m [("REMOVE_occasions", Val.bool true)]).1 =
      { m with occasions := Val.list [] }) ∧
    (∀ m : MemoryState, (updateFromDict m [("REMOVE_budget", Val.bool true)]).1 =
      { m with budget :=
          Val.dict [("min", Val.none), ("max", Val.none), ("around", Val.none)] }) ∧
    (∀ m : MemoryState, (updateFromDict m [("REMOVE_effort_level", Val.bool true)]).1 =
      { m with effort_level := Val.none }) ∧
    (∀ m : MemoryState, (updateFromDict m [("REMOVE_season", Val.bool true)]).1 =
      { m with season := Val.none }) ∧
    (∀ m : MemoryState, (updateFromDict m [("REMOVE_quantity", Val.bool true)]).1 =
      { m with quantity := Val.none }) ∧
    (∀ m : MemoryState, (updateFromDict m [("REMOVE_product_type", Val.bool true)]).1 =
      { m with product_type := Val.none }) ∧
    (∀ m : MemoryState, (updateFromDict m [("REMOVE_exclude_colors", Val.bool true)]).1 =
      { m with exclude_colors := Val.list [] }) ∧
    (∀ m : MemoryState,
      (updateFromDict m [("REMOVE_exclude_flower_types", Val.bool true)]).1 =
        { m with exclude_flower_types := Val.list [] }) ∧
    (∀ m : MemoryState,
      (updateFromDict m [("REMOVE_exclude_occasions", Val.bool true)]).1 =
        { m with exclude_occasions := Val.list [] }) ∧
    (∀ m : MemoryState,
      (updateFromDict m [("REMOVE_exclude_effort_levels", Val.bool true)]).1 =
        { m with exclude_effort_levels := Val.list [] }) ∧
    (∀ m : MemoryState,
      (updateFromDict m [("REMOVE_exclude_product_types", Val.bool true)]).1 =
        { m with exclude_product_types := Val.list [] }) ∧
    (∀ m : MemoryState,
      (updateFromDict m
          [("REMOVE_colors", Val.bool true), ("colors", Val.list [Val.str "white"])]).1 =
        { m with colors := Val.list [Val.str "white"] }) := by
  refine ⟨?_, ?_, ?_, ?_, ?_, ?_, ?_, ?_, ?_, ?_, ?_, ?_, ?_, ?_⟩ <;> intro m <;> rfl

/-- C2: the claim states `update_from_dict` never raises and never leaves
the memory partially updated, malformed values being silently ignored.  A
truthy non-dict budget value raises (`TypeError` here), after the `colors`
assignment — processed earlier in the method — has already mutated the
state. -/
theorem claimC2_counterexample :
    (updateFromDict MemoryState.init
        [("colors", Val.list [Val.str "red"]), ("budget", Val.int 5)]).2 =
      some PyErr.typeError ∧
    ((updateFromDict MemoryState.init
        [("colors", Val.list [Val.str "red"]), ("budget", Val.int 5)]).1).colors =
      Val.list [Val.str "red"] ∧
    Val.list [Val.str "red"] ≠ MemoryState.init.colors := by
  refine ⟨rfl, rfl, ?_⟩
  simp [MemoryState.init]

/-- C2 (amended): unrecognized keys are silently ignored (such an update is
a no-op), and the update never raises provided the budget value, whenever
present and truthy, is a dict-shaped pair sequence merged into a dict-valued
budget field; a truthy non-dict budget value instead raises mid-merge,
leaving the fields assigned before it (colors, flower_types, occasions)
already mutated. -/
theorem claimC2_amended :
    (∀ (m : MemoryState) (data : List (String × Val)),
      budgetOkay m data → (updateFromDict m data).2 = Option.none) ∧
    (∀ (m : MemoryState) (data : List (String × Val)),
      (∀ kv ∈ data, unrecognizedKey kv.1) → updateFromDict m data = (m, Option.none)) := by
  constructor
  · intro m data hB
    simp only [updateFromDict]
    split
    · next v heq =>
      by_cases ht : v.truthy
      · simp only [ht, if_true]
        obtain ⟨⟨kvs, hkvs⟩, ps, hps⟩ := hB v heq ht
        rw [show (prefixState m data).budget = Val.dict kvs from
          (prefixState_budget m data).trans hkvs]
        simp only [dictUpdate, hps]
      · simp [ht]
    · rfl
  · intro m data h
    have hs : stepOne m data = m :=
      stepOne_of_noRemove data m (fun kv hkv => (h kv hkv).1)
    have hk : ∀ k : String,
        k ∈ ["colors", "flower_types", "occasions", "budget", "effort_level", "season",
          "quantity", "product_type", "color_logic", "exclude_colors",
          "exclude_flower_types", "exclude_occasions", "exclude_effort_levels",
          "exclude_product_types"] → lookupKey data k = Option.none := by
      intro k hkmem
      refine lookupKey_of_ne data k (fun kv hkv heq => ?_)
      exact (h kv hkv).2 (heq ▸ hkmem)
    unfold updateFromDict prefixState updateAfterBudget
    rw [hk "budget" (by norm_num)]
    dsimp only
    rw [setField_of_none _ _ _ _ (hk "colors" (by norm_num)),
      setField_of_none _ _ _ _ (hk "flower_types" (by norm_num)),
      setField_of_none _ _ _ _ (hk "occasions" (by norm_num)),
      setField_of_none _ _ _ _ (hk "effort_level" (by norm_num)),
      setField_of_none _ _ _ _ (hk "season" (by norm_num)),
      setField_of_none _ _ _ _ (hk "quantity" (by norm_num)),
      setField_of_none _ _ _ _ (hk "product_type" (by norm_num)),
      setField_of_none _ _ _ _ (hk "color_logic" (by norm_num)),
      setField_of_none _ _ _ _ (hk "exclude_colors" (by norm_num)),
      setField_of_none _ _ _ _ (hk "exclude_flower_types" (by norm_num)),
      setField_of_none _ _ _ _ (hk "exclude_occasions" (by norm_num)),
      setField_of_none _ _ _ _ (hk "exclude_effort_levels" (by norm_num)),
      setField_of_none _ _ _ _ (hk "exclude_product_types" (by norm_num)), hs]

/-- C2 witness: a well-formed single-field update merges without raising. -/
theorem claimC2_witness :
    (updateFromDict MemoryState.init [("colors", Val.list [Val.str "red"])]).2 =
      Option.none :=
  claimC2_amended.1 _ _ (fun _ hv _ => Option.noConfusion hv)

/-!
## Lemmas for claim C7
-/

/-- A bound key looks up to something. -/
theorem lookupKey_isSome_of_mem (data : List (String × Val)) (kv : String × Val)
    (h : kv ∈ data) : ∃ u, lookupKey data kv.1 = some u := by
  induction data with
  | nil => cases h
  | cons a t ih =>
    by_cases hak : a.1 = kv.1
    · exact ⟨a.2, by simp [lookupKey, List.find?_cons_of_pos, hak]⟩
    · rcases List.mem_cons.1 h with rfl | hmem
      · exact absurd rfl hak
      · obtain ⟨u, hu⟩ := ih hmem
        refine ⟨u, ?_⟩
        simpa [lookupKey, List.find?_cons_of_neg, hak] using hu

/-- Lookup in a concatenation: first list first. -/
theorem lookupKey_append (l1 l2 : List (String × Val)) (k : String) :
    lookupKey (l1 ++ l2) k =
      match lookupKey l1 k with
      | some v => some v
      | Option.none => lookupKey l2 k := by
  unfold lookupKey
  rw [List.find?_append]
  cases h : List.find? (fun kv => decide (kv.1 = k)) l1 <;> simp [h, Option.or]

/-- Lookup at a matching head binding. -/
theorem lookupKey_cons_of_pos (a : String × Val) (t : List (String × Val))
    (k : String) (h : a.1 = k) : lookupKey (a :: t) k = some a.2 := by
  unfold lookupKey
  rw [List.find?_cons_of_pos _ (by simpa using h)]
  rfl

/-- Lookup past a non-matching head binding. -/
theorem lookupKey_cons_of_neg (a : String × Val) (t : List (String × Val))
    (k : String) (h : ¬a.1 = k) : lookupKey (a :: t) k = lookupKey t k := by
  unfold lookupKey
  rw [List.find?_cons_of_neg _ (by simpa using h)]

/-- Lookup in the overwritten-in-place part of the merge: old keys, with the
new value when the new bindings have one. -/
theorem lookupKey_mapped (old new : List (String × Val)) (k : String) :
    lookupKey (old.map (fun kv => (kv.1, (lookupKey new kv.1).getD kv.2))) k =
      (lookupKey old k).map (fun v => (lookupKey new k).getD v) := by
  induction old with
  | nil => rfl
  | cons a t ih =>
    rw [List.map_cons]
    by_cases hak : a.1 = k
    · rw [lookupKey_cons_of_pos (a.1, (lookupKey new a.1).getD a.2) _ _ hak,
        lookupKey_cons_of_pos a _ _ hak]
      simp [hak]
    · rw [lookupKey_cons_of_neg (a.1, (lookupKey new a.1).getD a.2) _ _ hak,
        lookupKey_cons_of_neg a _ _ hak, ih]

/-- Lookup in the appended part of the merge: new keys that are not old
keys. -/
theorem lookupKey_filterNew (old new : List (String × Val)) (k : String) :
    lookupKey (new.filter (fun kv => (lookupKey old kv.1).isNone)) k =
      if (lookupKey old k).isNone then lookupKey new k else Option.none := by
  induction new with
  | nil => simp [lookupKey]
  | cons b t ih =>
    by_cases hb : (lookupKey old b.1).isNone
    · rw [List.filter_cons_of_pos (by simpa using hb)]
      by_cases hbk : b.1 = k
      · have hok : (lookupKey old k).isNone = true := hbk ▸ hb
        rw [if_pos hok, lookupKey_cons_of_pos _ _ _ hbk, lookupKey_cons_of_pos _ _ _ hbk]
      · rw [lookupKey_cons_of_neg _ _ _ hbk, ih]
        by_cases hok : (lookupKey old k).isNone
        · rw [if_pos hok, if_pos hok, lookupKey_cons_of_neg _ _ _ hbk]
        · rw [if_neg hok, if_neg hok]
    · rw [List.filter_cons_of_neg (by simpa using hb), ih]
      by_cases hbk : b.1 = k
      · have hok : ¬ (lookupKey old k).isNone = true := hbk ▸ hb
        rw [if_neg hok, if_neg hok]
      · by_cases hok : (lookupKey old k).isNone
        · rw [if_pos hok, if_pos hok, lookupKey_cons_of_neg _ _ _ hbk]
        · rw [if_neg hok, if_neg hok]

/-- `dict.update` merge: a key absent from the new bindings keeps its old
binding. -/
theorem lookupKey_mergeAssoc_of_none (old new : List (String × Val)) (k : String)
    (hn : lookupKey new k = Option.none) :
    lookupKey (mergeAssoc old new) k = lookupKey old k := by
  unfold mergeAssoc
  rw [lookupKey_append, lookupKey_mapped, lookupKey_filterNew]
  cases ho : lookupKey old k <;> simp [hn, ho]

/-- `dict.update` merge: a key bound in the new bindings takes its new
value. -/
theorem lookupKey_mergeAssoc_of_some (old new : List (String × Val)) (k : String)
    (w : Val) (hn : lookupKey new k = some w) :
    lookupKey (mergeAssoc old new) k = some w := by
  unfold mergeAssoc
  rw [lookupKey_append, lookupKey_mapped, lookupKey_filterNew]
  cases ho : lookupKey old k <;> simp [hn, ho]

/-- The outcome of `update_from_dict` under a well-formed budget: no
exception, and the final state is the post-budget assignments applied to the
prefix state with some budget value `b` characterized by the two clauses. -/
theorem updateFromDict_cases (m : MemoryState) (data : List (String × Val))
    (hB : budgetOkay m data) :
    (updateFromDict m data).2 = Option.none ∧
    ∃ b : Val,
      (updateFromDict m data).1 =
        updateAfterBudget data { prefixState m data with budget := b } ∧
      (∀ v kvs ps, lookupKey data "budget" = some v → v.truthy = true →
        (stepOne m data).budget = Val.dict kvs → parsePairs v = some ps →
        b = Val.dict (mergeAssoc kvs ps)) ∧
      ((lookupKey data "budget" = Option.none ∨
          (∀ v, lookupKey data "budget" = some v → v.truthy = false)) →
        b = (stepOne m data).budget) := by
  simp only [updateFromDict]
  split
  · next v heq =>
    by_cases ht : v.truthy
    · simp only [ht, if_true]
      obtain ⟨⟨kvs, hkvs⟩, ps, hps⟩ := hB v heq ht
      rw [show (prefixState m data).budget = Val.dict kvs from
        (prefixState_budget m data).trans hkvs]
      simp only [dictUpdate, hps]
      refine ⟨by trivial, Val.dict (mergeAssoc kvs ps), by trivial, ?_, ?_⟩
      · intro v2 kvs2 ps2 heq2 _ hkvs2 hps2
        rw [heq] at heq2
        cases heq2
        rw [hkvs] at hkvs2
        cases hkvs2
        rw [hps] at hps2
        cases hps2
        rfl
      · intro hcon
        rcases hcon with hnone | hfal
        · rw [heq] at hnone; cases hnone
        · rw [hfal v heq] at ht; cases ht
    · simp only [ht, Bool.false_eq_true, if_false]
      refine ⟨by trivial, (prefixState m data).budget, by trivial, ?_, fun _ => prefixState_budget m data⟩
      intro v2 kvs2 ps2 heq2 ht2 _ _
      rw [heq] at heq2
      cases heq2
      rw [ht2] at ht
      cases ht rfl
  · next heq =>
    refine ⟨by trivial, (prefixState m data).budget, by trivial, ?_, fun _ => prefixState_budget m data⟩
    intro v2 kvs2 ps2 heq2 _ _ _
    rw [heq] at heq2
    cases heq2

/-- `updateAfterBudget` leaves `colors` alone. -/
theorem uab_colors (data : List (String × Val)) (S : MemoryState) :
    (updateAfterBudget data S).colors = S.colors := by
  unfold updateAfterBudget
  rw [setField_proj MemoryState.colors, setField_proj MemoryState.colors,
    setField_proj MemoryState.colors, setField_proj MemoryState.colors,
    setField_proj MemoryState.colors, setField_proj MemoryState.colors,
    setField_proj MemoryState.colors, setField_proj MemoryState.colors,
    setField_proj MemoryState.colors, setField_proj MemoryState.colors] <;> intros <;> rfl

/-- `updateAfterBudget` leaves `flower_types` alone. -/
theorem uab_flower_types (data : List (String × Val)) (S : MemoryState) :
    (updateAfterBudget data S).flower_types = S.flower_types := by
  unfold updateAfterBudget
  rw [setField_proj MemoryState.flower_types, setField_proj MemoryState.flower_types,
    setField_proj MemoryState.flower_types, setField_proj MemoryState.flower_types,
    setField_proj MemoryState.flower_types, setField_proj MemoryState.flower_types,
    setField_proj MemoryState.flower_types, setField_proj MemoryState.flower_types,
    setField_proj MemoryState.flower_types, setField_proj MemoryState.flower_types] <;>
    intros <;> rfl

/-- `updateAfterBudget` leaves `occasions` alone. -/
theorem uab_occasions (data : List (String × Val)) (S : MemoryState) :
    (updateAfterBudget data S).occasions = S.occasions := by
  unfold updateAfterBudget
  rw [setField_proj MemoryState.occasions, setField_proj MemoryState.occasions,
    setField_proj MemoryState.occasions, setField_proj MemoryState.occasions,
    setField_proj MemoryState.occasions, setField_proj MemoryState.occasions,
    setField_proj MemoryState.occasions, setField_proj MemoryState.occasions,
    setField_proj MemoryState.occasions, setField_proj MemoryState.occasions] <;>
    intros <;> rfl

/-- `updateAfterBudget` leaves `budget` alone. -/
theorem uab_budget (data : List (String × Val)) (S : MemoryState) :
    (updateAfterBudget data S).budget = S.budget := by
  unfold updateAfterBudget
  rw [setField_proj MemoryState.budget, setField_proj MemoryState.budget,
    setField_proj MemoryState.budget, setField_proj MemoryState.budget,
    setField_proj MemoryState.budget, setField_proj MemoryState.budget,
    setField_proj MemoryState.budget, setField_proj MemoryState.budget,
    setField_proj MemoryState.budget, setField_proj MemoryState.budget] <;> intros <;> rfl

/-- `updateAfterBudget` assigns `effort_level` (innermost layer). -/
theorem uab_effort_level (data : List (String × Val)) (S : MemoryState) :
    (updateAfterBudget data S).effort_level =
      applyOpt (lookupKey data "effort_level") S.effort_level := by
  unfold updateAfterBudget
  rw [setField_proj MemoryState.effort_level, setField_proj MemoryState.effort_level,
    setField_proj MemoryState.effort_level, setField_proj MemoryState.effort_level,
    setField_proj MemoryState.effort_level, setField_proj MemoryState.effort_level,
    setField_proj MemoryState.effort_level, setField_proj MemoryState.effort_level,
    setField_proj MemoryState.effort_level,
    setField_proj_self MemoryState.effort_level] <;> intros <;> rfl

/-- `updateAfterBudget` assigns `season`. -/
theorem uab_season (data : List (String × Val)) (S : MemoryState) :
    (updateAfterBudget data S).season = applyOpt (lookupKey data "season") S.season := by
  unfold updateAfterBudget
  rw [setField_proj MemoryState.season, setField_proj MemoryState.season,
    setField_proj MemoryState.season, setField_proj MemoryState.season,
    setField_proj MemoryState.season, setField_proj MemoryState.season,
    setField_proj MemoryState.season, setField_proj MemoryState.season,
    setField_proj_self MemoryState.season,
    setField_proj MemoryState.season] <;> intros <;> rfl

/-- `updateAfterBudget` assigns `quantity`. -/
theorem uab_quantity (data : List (String × Val)) (S : MemoryState) :
    (updateAfterBudget data S).quantity = applyOpt (lookupKey data "quantity") S.quantity := by
  unfold updateAfterBudget
  rw [setField_proj MemoryState.quantity, setField_proj MemoryState.quantity,
    setField_proj MemoryState.quantity, setField_proj MemoryState.quantity,
    setField_proj MemoryState.quantity, setField_proj MemoryState.quantity,
    setField_proj MemoryState.quantity,
    setField_proj_self MemoryState.quantity,
    setField_proj MemoryState.quantity, setField_proj MemoryState.quantity] <;>
    intros <;> rfl

/-- `updateAfterBudget` assigns `product_type`. -/
theorem uab_product_type (data : List (String × Val)) (S : MemoryState) :
    (updateAfterBudget data S).product_type =
      applyOpt (lookupKey data "product_type") S.product_type := by
  unfold updateAfterBudget
  rw [setField_proj MemoryState.product_type, setField_proj MemoryState.product_type,
    setField_proj MemoryState.product_type, setField_proj MemoryState.product_type,
    setField_proj MemoryState.product_type, setField_proj MemoryState.product_type,
    setField_proj_self MemoryState.product_type,
    setField_proj MemoryState.product_type, setField_proj MemoryState.product_type,
    setField_proj MemoryState.product_type] <;> intros <;> rfl

/-- `updateAfterBudget` assigns `color_logic`. -/
theorem uab_color_logic (data : List (String × Val)) (S : MemoryState) :
    (updateAfterBudget data S).color_logic =
      applyOpt (lookupKey data "color_logic") S.color_logic := by
  unfold updateAfterBudget
  rw [setField_proj MemoryState.color_logic, setField_proj MemoryState.color_logic,
    setField_proj MemoryState.color_logic, setField_proj MemoryState.color_logic,
    setField_proj MemoryState.color_logic,
    setField_proj_self MemoryState.color_logic,
    setField_proj MemoryState.color_logic, setField_proj MemoryState.color_logic,
    setField_proj MemoryState.color_logic, setField_proj MemoryState.color_logic] <;>
    intros <;> rfl

/-- `updateAfterBudget` assigns `exclude_colors`. -/
theorem uab_exclude_colors (data : List (String × Val)) (S : MemoryState) :
    (updateAfterBudget data S).exclude_colors =
      applyOpt (lookupKey data "exclude_colors") S.exclude_colors := by
  unfold updateAfterBudget
  rw [setField_proj MemoryState.exclude_colors, setField_proj MemoryState.exclude_colors,
    setField_proj MemoryState.exclude_colors, setField_proj MemoryState.exclude_colors,
    setField_proj_self MemoryState.exclude_colors,
    setField_proj MemoryState.exclude_colors, setField_proj MemoryState.exclude_colors,
    setField_proj MemoryState.exclude_colors, setField_proj MemoryState.exclude_colors,
    setField_proj MemoryState.exclude_colors] <;> intros <;> rfl

/-- `updateAfterBudget` assigns `exclude_flower_types`. -/
theorem uab_exclude_flower_types (data : List (String × Val)) (S : MemoryState) :
    (updateAfterBudget data S).exclude_flower_types =
      applyOpt (lookupKey data "exclude_flower_types") S.exclude_flower_types := by
  unfold updateAfterBudget
  rw [setField_proj MemoryState.exclude_flower_types,
    setField_proj MemoryState.exclude_flower_types,
    setField_proj MemoryState.exclude_flower_types,
    setField_proj_self MemoryState.exclude_flower_types,
    setField_proj MemoryState.exclude_flower_types,
    setField_proj MemoryState.exclude_flower_types,
    setField_proj MemoryState.exclude_flower_types,
    setField_proj MemoryState.exclude_flower_types,
    setField_proj MemoryState.exclude_flower_types,
    setField_proj MemoryState.exclude_flower_types] <;> intros <;> rfl

/-- `updateAfterBudget` assigns `exclude_occasions`. -/
theorem uab_exclude_occasions (data : List (String × Val)) (S : MemoryState) :
    (updateAfterBudget data S).exclude_occasions =
      applyOpt (lookupKey data "exclude_occasions") S.exclude_occasions := by
  unfold updateAfterBudget
  rw [setField_proj MemoryState.exclude_occasions,
    setField_proj MemoryState.exclude_occasions,
    setField_proj_self MemoryState.exclude_occasions,
    setField_proj MemoryState.exclude_occasions,
    setField_proj MemoryState.exclude_occasions,
    setField_proj MemoryState.exclude_occasions,
    setField_proj MemoryState.exclude_occasions,
    setField_proj MemoryState.exclude_occasions,
    setField_proj MemoryState.exclude_occasions,
    setField_proj MemoryState.exclude_occasions] <;> intros <;> rfl

/-- `updateAfterBudget` assigns `exclude_effort_levels`. -/
theorem uab_exclude_effort_levels (data : List (String × Val)) (S : MemoryState) :
    (updateAfterBudget data S).exclude_effort_levels =
      applyOpt (lookupKey data "exclude_effort_levels") S.exclude_effort_levels := by
  unfold updateAfterBudget
  rw [setField_proj MemoryState.exclude_effort_levels,
    setField_proj_self MemoryState.exclude_effort_levels,
    setField_proj MemoryState.exclude_effort_levels,
    setField_proj MemoryState.exclude_effort_levels,
    setField_proj MemoryState.exclude_effort_levels,
    setField_proj MemoryState.exclude_effort_levels,
    setField_proj MemoryState.exclude_effort_levels,
    setField_proj MemoryState.exclude_effort_levels,
    setField_proj MemoryState.exclude_effort_levels,
    setField_proj MemoryState.exclude_effort_levels] <;> intros <;> rfl

/-- `updateAfterBudget` assigns `exclude_product_types` (outermost layer). -/
theorem uab_exclude_product_types (data : List (String × Val)) (S : MemoryState) :
    (updateAfterBudget data S).exclude_product_types =
      applyOpt (lookupKey data "exclude_product_types") S.exclude_product_types := by
  unfold updateAfterBudget
  rw [setField_proj_self MemoryState.exclude_product_types,
    setField_proj MemoryState.exclude_product_types,
    setField_proj MemoryState.exclude_product_types,
    setField_proj MemoryState.exclude_product_types,
    setField_proj MemoryState.exclude_product_types,
    setField_proj MemoryState.exclude_product_types,
    setField_proj MemoryState.exclude_product_types,
    setField_proj MemoryState.exclude_product_types,
    setField_proj MemoryState.exclude_product_types,
    setField_proj MemoryState.exclude_product_types] <;> intros <;> rfl

/-- The prefix assigns `colors` (innermost layer). -/
theorem pfx_colors (m : MemoryState) (data : List (String × Val)) :
    (prefixState m data).colors = applyOpt (lookupKey data "colors") (stepOne m data).colors := by
  unfold prefixState
  rw [setField_proj MemoryState.colors, setField_proj MemoryState.colors,
    setField_proj_self MemoryState.colors] <;> intros <;> rfl

/-- The prefix assigns `flower_types`. -/
theorem pfx_flower_types (m : MemoryState) (data : List (String × Val)) :
    (prefixState m data).flower_types =
      applyOpt (lookupKey data "flower_types") (stepOne m data).flower_types := by
  unfold prefixState
  rw [setField_proj MemoryState.flower_types, setField_proj_self MemoryState.flower_types,
    setField_proj MemoryState.flower_types] <;> intros <;> rfl

/-- The prefix assigns `occasions` (outermost layer). -/
theorem pfx_occasions (m : MemoryState) (data : List (String × Val)) :
    (prefixState m data).occasions =
      applyOpt (lookupKey data "occasions") (stepOne m data).occasions := by
  unfold prefixState
  rw [setField_proj_self MemoryState.occasions, setField_proj MemoryState.occasions,
    setField_proj MemoryState.occasions] <;> intros <;> rfl

/-- The prefix leaves any other projection alone. -/
theorem pfx_proj (p : MemoryState → Val) (m : MemoryState) (data : List (String × Val))
    (h1 : ∀ s v, p { s with occasions := v } = p s)
    (h2 : ∀ s v, p { s with flower_types := v } = p s)
    (h3 : ∀ s v, p { s with colors := v } = p s) :
    p (prefixState m data) = p (stepOne m data) := by
  unfold prefixState
  rw [setField_proj p _ _ _ _ h1, setField_proj p _ _ _ _ h2, setField_proj p _ _ _ _ h3]

/-- C7: for every additive field present with a truthy value in an update
(one with no removal directives and a well-formed budget), the update
replaces the field's value wholesale; the budget dict alone is merged
key-by-key, so keys absent from the budget update keep their old binding;
a field absent or falsy in the update is left unchanged; `update({})`
changes nothing. -/
theorem claimC7 :
    (∀ m : MemoryState, updateFromDict m [] = (m, Option.none)) ∧
    (∀ (old new : List (String × Val)) (k : String),
      lookupKey new k = Option.none →
        lookupKey (mergeAssoc old new) k = lookupKey old k) ∧
    (∀ (old new : List (String × Val)) (k : String) (w : Val),
      lookupKey new k = some w → lookupKey (mergeAssoc old new) k = some w) ∧
    (∀ (m : MemoryState) (data : List (String × Val)),
      (∀ kv ∈ data, pyStarts "REMOVE_" kv.1 = false) →
      budgetOkay m data →
      (updateFromDict m data).2 = Option.none ∧
      (updateFromDict m data).1.colors = applyOpt (lookupKey data "colors") m.colors ∧
      (updateFromDict m data).1.flower_types =
        applyOpt (lookupKey data "flower_types") m.flower_types ∧
      (updateFromDict m data).1.occasions =
        applyOpt (lookupKey data "occasions") m.occasions ∧
      (updateFromDict m data).1.effort_level =
        applyOpt (lookupKey data "effort_level") m.effort_level ∧
      (updateFromDict m data).1.season = applyOpt (lookupKey data "season") m.season ∧
      (updateFromDict m data).1.quantity =
        applyOpt (lookupKey data "quantity") m.quantity ∧
      (updateFromDict m data).1.product_type =
        applyOpt (lookupKey data "product_type") m.product_type ∧
      (updateFromDict m data).1.color_logic =
        applyOpt (lookupKey data "color_logic") m.color_logic ∧
      (updateFromDict m data).1.exclude_colors =
        applyOpt (lookupKey data "exclude_colors") m.exclude_colors ∧
      (updateFromDict m data).1.exclude_flower_types =
        applyOpt (lookupKey data "exclude_flower_types") m.exclude_flower_types ∧
      (updateFromDict m data).1.exclude_occasions =
        applyOpt (lookupKey data "exclude_occasions") m.exclude_occasions ∧
      (updateFromDict m data).1.exclude_effort_levels =
        applyOpt (lookupKey data "exclude_effort_levels") m.exclude_effort_levels ∧
      (updateFromDict m data).1.exclude_product_types =
        applyOpt (lookupKey data "exclude_product_types") m.exclude_product_types ∧
      (∀ v kvs ps, lookupKey data "budget" = some v → v.truthy = true →
        m.budget = Val.dict kvs → parsePairs v = some ps →
        (updateFromDict m data).1.budget = Val.dict (mergeAssoc kvs ps)) ∧
      ((lookupKey data "budget" = Option.none ∨
          (∀ v, lookupKey data "budget" = some v → v.truthy = false)) →
        (updateFromDict m data).1.budget = m.budget)) := by
  refine ⟨fun m => rfl, lookupKey_mergeAssoc_of_none, lookupKey_mergeAssoc_of_some, ?_⟩
  intro m data hR hB
  obtain ⟨hend, b, hfst, hbspec, hbdef⟩ := updateFromDict_cases m data hB
  have hs : stepOne m data = m := stepOne_of_noRemove data m hR
  refine ⟨hend, ?_, ?_, ?_, ?_, ?_, ?_, ?_, ?_, ?_, ?_, ?_, ?_, ?_, ?_, ?_⟩
  · rw [hfst, uab_colors]
    show (prefixState m data).colors = _
    rw [pfx_colors, hs]
  · rw [hfst, uab_flower_types]
    show (prefixState m data).flower_types = _
    rw [pfx_flower_types, hs]
  · rw [hfst, uab_occasions]
    show (prefixState m data).occasions = _
    rw [pfx_occasions, hs]
  · rw [hfst, uab_effort_level]
    show applyOpt _ (prefixState m data).effort_level = _
    rw [pfx_proj MemoryState.effort_level m data (fun _ _ => rfl) (fun _ _ => rfl)
      (fun _ _ => rfl), hs]
  · rw [hfst, uab_season]
    show applyOpt _ (prefixState m data).season = _
    rw [pfx_proj MemoryState.season m data (fun _ _ => rfl) (fun _ _ => rfl)
      (fun _ _ => rfl), hs]
  · rw [hfst, uab_quantity]
    show applyOpt _ (prefixState m data).quantity = _
    rw [pfx_proj MemoryState.quantity m data (fun _ _ => rfl) (fun _ _ => rfl)
      (fun _ _ => rfl), hs]
  · rw [hfst, uab_product_type]
    show applyOpt _ (prefixState m data).product_type = _
    rw [pfx_proj MemoryState.product_type m data (fun _ _ => rfl) (fun _ _ => rfl)
      (fun _ _ => rfl), hs]
  · rw [hfst, uab_color_logic]
    show applyOpt _ (prefixState m data).color_logic = _
    rw [pfx_proj MemoryState.color_logic m data (fun _ _ => rfl) (fun _ _ => rfl)
      (fun _ _ => rfl), hs]
  · rw [hfst, uab_exclude_colors]
    show applyOpt _ (prefixState m data).exclude_colors = _
    rw [pfx_proj MemoryState.exclude_colors m data (fun _ _ => rfl) (fun _ _ => rfl)
      (fun _ _ => rfl), hs]
  · rw [hfst, uab_exclude_flower_types]
    show applyOpt _ (prefixState m data).exclude_flower_types = _
    rw [pfx_proj MemoryState.exclude_flower_types m data (fun _ _ => rfl)
      (fun _ _ => rfl) (fun _ _ => rfl), hs]
  · rw [hfst, uab_exclude_occasions]
    show applyOpt _ (prefixState m data).exclude_occasions = _
    rw [pfx_proj MemoryState.exclude_occasions m data (fun _ _ => rfl) (fun _ _ => rfl)
      (fun _ _ => rfl), hs]
  · rw [hfst, uab_exclude_effort_levels]
    show applyOpt _ (prefixState m data).exclude_effort_levels = _
    rw [pfx_proj MemoryState.exclude_effort_levels m data (fun _ _ => rfl)
      (fun _ _ => rfl) (fun _ _ => rfl), hs]
  · rw [hfst, uab_exclude_product_types]
    show applyOpt _ (prefixState m data).exclude_product_types = _
    rw [pfx_proj MemoryState.exclude_product_types m data (fun _ _ => rfl)
      (fun _ _ => rfl) (fun _ _ => rfl), hs]
  · intro v kvs ps hv ht hkvs hps
    rw [hfst, uab_budget]
    show b = _
    exact hbspec v kvs ps hv ht (by rw [hs]; exact hkvs) hps
  · intro hcon
    rw [hfst, uab_budget]
    show b = _
    rw [hbdef hcon, hs]

/-- C7 witness: replacing `colors` wholesale (red replaced by white, not
unioned) while a key-by-key budget merge preserves the previously set
`max`. -/
theorem claimC7_witness :
    (updateFromDict { MemoryState.init with colors := Val.list [Val.str "red"] }
        [("colors", Val.list [Val.str "white"])]).1.colors =
      applyOpt (lookupKey [("colors", Val.list [Val.str "white"])] "colors")
        (Val.list [Val.str "red"]) ∧
    lookupKey (mergeAssoc [("min", Val.none), ("max", Val.int 100), ("around", Val.none)]
        [("min", Val.int 50)]) "max" = some (Val.int 100) := by
  constructor
  · exact ((claimC7.2.2.2 { MemoryState.init with colors := Val.list [Val.str "red"] }
      [("colors", Val.list [Val.str "white"])]
      (by intro kv hkv
          rcases List.mem_cons.1 hkv with rfl | h
          exacts [rfl, absurd h (List.not_mem_nil kv)])
      (fun v hv _ => Option.noConfusion hv)).2).1
  · exact claimC7.2.1 _ _ "max" rfl

/-!
## Three-valued logic lemmas
-/

/-- An `AND` is SQL-true exactly when both conjuncts are. -/
theorem sAnd_eq_tt (a b : SqlB) : sAnd a b = .tt ↔ a = .tt ∧ b = .tt := by
  cases a <;> cases b <;> simp [sAnd]

/-- An `OR` is SQL-true exactly when a disjunct is. -/
theorem sOr_eq_tt (a b : SqlB) : sOr a b = .tt ↔ a = .tt ∨ b = .tt := by
  cases a <;> cases b <;> simp [sOr]

/-- An `AND`-join is SQL-true exactly when every conjunct is. -/
theorem sAndJoin_eq_tt (l : List SqlB) : sAndJoin l = .tt ↔ ∀ s ∈ l, s = .tt := by
  induction l with
  | nil => simp [sAndJoin]
  | cons a t ih =>
    simp only [sAndJoin, List.foldr_cons] at ih ⊢
    rw [sAnd_eq_tt, ih]
    simp

/-- An `OR`-join is SQL-true exactly when some disjunct is. -/
theorem sOrJoin_eq_tt (l : List SqlB) : sOrJoin l = .tt ↔ ∃ s ∈ l, s = .tt := by
  induction l with
  | nil => simp [sOrJoin]
  | cons a t ih =>
    simp only [sOrJoin, List.foldr_cons] at ih ⊢
    rw [sOr_eq_tt, ih]
    simp [eq_comm]

/-- A boolean-true test is SQL-true exactly on a non-null true flag. -/
theorem flagTrue_eq_tt (o : Option Bool) : flagTrue o = .tt ↔ o = some true := by
  cases o with
  | none => simp [flagTrue]
  | some b => cases b <;> simp [flagTrue]

/-- A boolean-false test is SQL-true exactly on a non-null false flag. -/
theorem flagFalse_eq_tt (o : Option Bool) : flagFalse o = .tt ↔ o = some false := by
  cases o with
  | none => simp [flagFalse]
  | some b => cases b <;> simp [flagFalse]

/-- A two-valued comparison is SQL-true exactly when its proposition
holds. -/
theorem ite_tt_iff (p : Prop) [Decidable p] :
    (if p then SqlB.tt else SqlB.ff) = .tt ↔ p := by
  split <;> simp [*]

/-- A null column makes `isNotNull` SQL-false, a set one SQL-true. -/
theorem isNotNull_eq_tt {α : Type} (o : Option α) : isNotNull o = .tt ↔ o ≠ Option.none := by
  cases o <;> simp [isNotNull]

/-!
## Claim C4 — seasonal availability
-/

/-- The claim's reading of one stored range: all four components set, the
date not before the start and not after the end (boundaries inclusive);
a null/unset range contains nothing. -/
def specRangeContains (sm sd emo edo : Option ℤ) (m d : ℤ) : Prop :=
  ∃ a b c e, sm = some a ∧ sd = some b ∧ emo = some c ∧ edo = some e ∧
    ((a < m ∨ (a = m ∧ b ≤ d)) ∧ (m < c ∨ (c = m ∧ d ≤ e)))

/-- A stored range is either fully set or fully unset (the shape the data
pipeline produces; partially-set ranges are outside the claim). -/
def rangeSetOrUnset (sm sd emo edo : Option ℤ) : Prop :=
  (sm.isSome ∧ sd.isSome ∧ emo.isSome ∧ edo.isSome) ∨
    (sm = Option.none ∧ sd = Option.none ∧ emo = Option.none ∧ edo = Option.none)

/-- One generated range test is SQL-true exactly when the claim's range
containment holds, for a fully set or fully unset range. -/
theorem rangeCond_eq_tt (sm sd emo edo : Option ℤ) (m d : ℤ)
    (h : rangeSetOrUnset sm sd emo edo) :
    rangeCond sm sd emo edo m d = .tt ↔ specRangeContains sm sd emo edo m d := by
  rcases h with ⟨h1, h2, h3, h4⟩ | ⟨h1, h2, h3, h4⟩
  · obtain ⟨a, ha⟩ := Option.isSome_iff_exists.1 h1
    obtain ⟨b, hb⟩ := Option.isSome_iff_exists.1 h2
    obtain ⟨c, hc⟩ := Option.isSome_iff_exists.1 h3
    obtain ⟨e, he⟩ := Option.isSome_iff_exists.1 h4
    subst ha hb hc he
    unfold rangeCond intLt intEq intLe intGt intGe
    rw [sAnd_eq_tt, sOr_eq_tt, sOr_eq_tt, sAnd_eq_tt, sAnd_eq_tt]
    simp only [ite_tt_iff, specRangeContains, Option.some.injEq]
    constructor
    · rintro ⟨hs, he2⟩
      exact ⟨a, b, c, e, rfl, rfl, rfl, rfl, by tauto⟩
    · rintro ⟨a2, b2, c2, e2, rfl, rfl, rfl, rfl, hcon⟩
      tauto
  · subst h1 h2 h3 h4
    unfold rangeCond intLt intEq intLe intGt intGe
    simp [specRangeContains, sAnd, sOr]

/-- C4: the generated seasonal-availability clause is SQL-true on a row and
event date exactly when the row's year-round flag is true or one of its
(fully set) stored ranges contains the date with inclusive boundaries —
null/unset ranges never match, and a year-round row matches every date. -/
theorem claimC4 (row : Row) (m d : ℤ)
    (h1 : rangeSetOrUnset row.season_start_month row.season_start_day
      row.season_end_month row.season_end_day)
    (h2 : rangeSetOrUnset row.season_range_2_start_month row.season_range_2_start_day
      row.season_range_2_end_month row.season_range_2_end_day)
    (h3 : rangeSetOrUnset row.season_range_3_start_month row.season_range_3_start_day
      row.season_range_3_end_month row.season_range_3_end_day) :
    buildSeasonalityCondition m d row = .tt ↔
      (row.is_year_round = some true ∨
        specRangeContains row.season_start_month row.season_start_day
          row.season_end_month row.season_end_day m d ∨
        specRangeContains row.season_range_2_start_month row.season_range_2_start_day
          row.season_range_2_end_month row.season_range_2_end_day m d ∨
        specRangeContains row.season_range_3_start_month row.season_range_3_start_day
          row.season_range_3_end_month row.season_range_3_end_day m d) := by
  unfold buildSeasonalityCondition
  rw [sOr_eq_tt, sOr_eq_tt, sOr_eq_tt, flagTrue_eq_tt,
    rangeCond_eq_tt _ _ _ _ _ _ h1, rangeCond_eq_tt _ _ _ _ _ _ h2,
    rangeCond_eq_tt _ _ _ _ _ _ h3]

/-- A catalog row with every nullable column unset (shared base for
concrete witnesses). -/
def rowBase : Row where
  unique_id := ""
  product_name := Option.none
  variant_name := Option.none
  variant_price := Option.none
  colors_raw := Option.none
  has_red := Option.none
  has_pink := Option.none
  has_white := Option.none
  has_yellow := Option.none
  has_orange := Option.none
  has_purple := Option.none
  has_blue := Option.none
  has_green := Option.none
  group_category := Option.none
  recipe_metafield := Option.none
  product_type_all_flowers := Option.none
  holiday_occasion := Option.none
  diy_level := Option.none
  is_year_round := Option.none
  season_start_month := Option.none
  season_start_day := Option.none
  season_end_month := Option.none
  season_end_day := Option.none
  season_range_2_start_month := Option.none
  season_range_2_start_day := Option.none
  season_range_2_end_month := Option.none
  season_range_2_end_day := Option.none
  season_range_3_start_month := Option.none
  season_range_3_start_day := Option.none
  season_range_3_end_month := Option.none
  season_range_3_end_day := Option.none

/-- A non-year-round row whose only availability range is June 1 – June 30. -/
def c4row : Row :=
  { rowBase with
    is_year_round := some false
    season_start_month := some 6
    season_start_day := some 1
    season_end_month := some 6
    season_end_day := some 30 }

/-- C4 witness: the June-only row matches June 1 (inclusive start boundary)
and does not match May 31. -/
theorem claimC4_witness :
    buildSeasonalityCondition 6 1 c4row = .tt ∧
    buildSeasonalityCondition 5 31 c4row ≠ .tt := by
  constructor
  · exact (claimC4 _ 6 1 (by simp [rangeSetOrUnset, c4row, rowBase]) (by simp [rangeSetOrUnset, c4row, rowBase])
      (by simp [rangeSetOrUnset, c4row, rowBase])).mpr
      (Or.inr (Or.inl ⟨6, 1, 6, 30, rfl, rfl, rfl, rfl, by norm_num⟩))
  · intro hc
    rcases (claimC4 _ 5 31 (by simp [rangeSetOrUnset, c4row, rowBase]) (by simp [rangeSetOrUnset, c4row, rowBase])
      (by simp [rangeSetOrUnset, c4row, rowBase])).mp hc with hy | hr1 | hr2 | hr3
    · simp [c4row, rowBase] at hy
    · simp only [specRangeContains, c4row, rowBase, Option.some.injEq] at hr1
      obtain ⟨a, ha, b, hb, c, hcc, e, he, hcon⟩ := hr1
      omega
    · simp [specRangeContains, c4row, rowBase] at hr2
    · simp [specRangeContains, c4row, rowBase] at hr3

/-!
## Claim C5 — AND/OR color logic and exclusions
-/

/-- A memory snapshot with no constraint set (shared base for concrete
witnesses). -/
def memBase : MemoryView where
  colors := []
  flower_types := []
  occasions := []
  budget := { min := Option.none, max := Option.none, around := Option.none }
  effort_level := Option.none
  season := Option.none
  quantity := Option.none
  product_type := Option.none
  color_logic := "AND"
  exclude_colors := []
  exclude_flower_types := []
  exclude_occasions := []
  exclude_effort_levels := []
  exclude_product_types := []

/-- C5: for a non-empty colors set whose entries all resolve, the compiled
color clause is the resolved per-color tests joined by `AND` when
`color_logic = "AND"` (SQL-true exactly when every test is true and
`colors_raw` is non-null) and joined by `OR` when `color_logic = "OR"`
(SQL-true exactly when some test is true and `colors_raw` is non-null);
for a non-empty exclude set the negated per-color tests are joined by `AND`
(SQL-true exactly when every exclusion test is true), whatever the value of
`color_logic`. -/
theorem claimC5 (cmap : List (String × List String)) (m : MemoryView) (row : Row)
    (h1 : m.colors ≠ []) (h2 : ∀ c ∈ m.colors, (colorCond cmap row c).isSome) :
    (m.color_logic = "AND" →
      colorsPiece cmap m row =
        [sAnd (sAndJoin (colorConds cmap m row)) (isNotNull row.colors_raw)] ∧
      (sAnd (sAndJoin (colorConds cmap m row)) (isNotNull row.colors_raw) = .tt ↔
        (∀ c ∈ m.colors, colorCond cmap row c = some SqlB.tt) ∧
          row.colors_raw ≠ Option.none)) ∧
    (m.color_logic = "OR" →
      colorsPiece cmap m row =
        [sAnd (sOrJoin (colorConds cmap m row)) (isNotNull row.colors_raw)] ∧
      (sAnd (sOrJoin (colorConds cmap m row)) (isNotNull row.colors_raw) = .tt ↔
        (∃ c ∈ m.colors, colorCond cmap row c = some SqlB.tt) ∧
          row.colors_raw ≠ Option.none)) ∧
    (m.exclude_colors ≠ [] →
      exclColorsPiece m row =
        [sAndJoin (m.exclude_colors.map (excludeColorCond row))] ∧
      (sAndJoin (m.exclude_colors.map (excludeColorCond row)) = .tt ↔
        ∀ c ∈ m.exclude_colors, excludeColorCond row c = .tt)) := by
  have hb1 : m.colors.isEmpty = false := by
    cases hm : m.colors with
    | nil => exact absurd hm h1
    | cons a t => rfl
  have hb2 : (colorConds cmap m row).isEmpty = false := by
    obtain ⟨c, hc⟩ := List.exists_mem_of_ne_nil _ h1
    obtain ⟨s, hs⟩ := Option.isSome_iff_exists.1 (h2 c hc)
    have hmem : s ∈ colorConds cmap m row := List.mem_filterMap.2 ⟨c, hc, hs⟩
    cases hm : colorConds cmap m row with
    | nil => rw [hm] at hmem; cases hmem
    | cons a t => rfl
  have handIff : sAndJoin (colorConds cmap m row) = .tt ↔
      ∀ c ∈ m.colors, colorCond cmap row c = some SqlB.tt := by
    rw [sAndJoin_eq_tt]
    constructor
    · intro hall c hc
      obtain ⟨s, hs⟩ := Option.isSome_iff_exists.1 (h2 c hc)
      rw [hs, hall s (List.mem_filterMap.2 ⟨c, hc, hs⟩)]
    · intro hall s hmem
      obtain ⟨c, hc, hs⟩ := List.mem_filterMap.1 hmem
      rw [hall c hc] at hs
      exact (Option.some.inj hs).symm
  have horIff : sOrJoin (colorConds cmap m row) = .tt ↔
      ∃ c ∈ m.colors, colorCond cmap row c = some SqlB.tt := by
    rw [sOrJoin_eq_tt]
    constructor
    · rintro ⟨s, hmem, hstt⟩
      obtain ⟨c, hc, hs⟩ := List.mem_filterMap.1 hmem
      exact ⟨c, hc, hstt ▸ hs⟩
    · rintro ⟨c, hc, hs⟩
      exact ⟨SqlB.tt, List.mem_filterMap.2 ⟨c, hc, hs⟩, rfl⟩
  refine ⟨?_, ?_, ?_⟩
  · intro hAND
    constructor
    · simp [colorsPiece, hb1, hb2, hAND]
    · rw [sAnd_eq_tt, handIff, isNotNull_eq_tt]
  · intro hOR
    constructor
    · have hne : ¬ m.color_logic = "AND" := by rw [hOR]; decide
      simp [colorsPiece, hb1, hb2, hne]
    · rw [sAnd_eq_tt, horIff, isNotNull_eq_tt]
  · intro hexc
    have hb3 : m.exclude_colors.isEmpty = false := by
      cases hm : m.exclude_colors with
      | nil => exact absurd hm hexc
      | cons a t => rfl
    refine ⟨by simp [exclColorsPiece, hb3], ?_⟩
    rw [sAndJoin_eq_tt]
    constructor
    · intro hall c hc
      exact hall _ (List.mem_map.2 ⟨c, hc, rfl⟩)
    · intro hall s hmem
      obtain ⟨c, hc, hs⟩ := List.mem_map.1 hmem
      rw [← hs]
      exact hall c hc

/-- A catalog row with only the red flag set (and a pink flag for the
exclusion test). -/
def c5row : Row :=
  { rowBase with
    has_red := some true
    has_white := some false
    has_pink := some true
    colors_raw := some "red" }

/-- Memory requesting red AND white. -/
def c5memAND : MemoryView := { memBase with colors := ["red", "white"] }

/-- Memory requesting red OR white, excluding pink. -/
def c5memOR : MemoryView :=
  { memBase with
    colors := ["red", "white"]
    color_logic := "OR"
    exclude_colors := ["pink"] }

/-- C5 witness: with `colors = ["red","white"]` a row having only the red
flag fails the AND clause, passes the OR clause, and with
`exclude_colors = ["pink"]` a pink-flagged row fails the exclusion clause
even under OR logic. -/
theorem claimC5_witness :
    sAnd (sAndJoin (colorConds [] c5memAND c5row)) (isNotNull c5row.colors_raw) ≠ .tt ∧
    sAnd (sOrJoin (colorConds [] c5memOR c5row)) (isNotNull c5row.colors_raw) = .tt ∧
    sAndJoin (c5memOR.exclude_colors.map (excludeColorCond c5row)) ≠ .tt := by
  refine ⟨?_, ?_, ?_⟩
  · intro h
    have hiff := ((claimC5 [] c5memAND c5row (by decide) (by decide)).1 rfl).2
    exact absurd (hiff.mp h) (by decide)
  · exact ((claimC5 [] c5memOR c5row (by decide) (by decide)).2.1 rfl).2.mpr (by decide)
  · intro h
    have hiff := ((claimC5 [] c5memOR c5row (by decide) (by decide)).2.2 (by decide)).2
    exact absurd (hiff.mp h) (by decide)

/-!
## Lemmas about the window-sampling plan
-/

/-- Dropping the ranks recovers the ranked list. -/
theorem rankedFrom_map_snd {α : Type} (n : ℕ) (l : List α) :
    (rankedFrom n l).map Prod.snd = l := by
  induction l generalizing n with
  | nil => rfl
  | cons a t ih => simp [rankedFrom, ih]

/-- Ranks assigned from position `n` lie in `(n, n + length]`. -/
theorem rankedFrom_fst_bounds {α : Type} (n : ℕ) (l : List α) :
    ∀ p ∈ rankedFrom n l, n < p.1 ∧ p.1 ≤ n + l.length := by
  induction l generalizing n with
  | nil => intro p hp; cases hp
  | cons a t ih =>
    intro p hp
    rcases List.mem_cons.1 hp with rfl | hmem
    · simp
    · have := ih (n + 1) p hmem
      simp only [List.length_cons]
      omega

/-- Assigned ranks are pairwise distinct. -/
theorem rankedFrom_fst_nodup {α : Type} (n : ℕ) (l : List α) :
    ((rankedFrom n l).map Prod.fst).Nodup := by
  induction l generalizing n with
  | nil => simp [rankedFrom]
  | cons a t ih =>
    simp only [rankedFrom, List.map_cons]
    refine List.nodup_cons.2 ⟨?_, ih (n + 1)⟩
    intro hmem
    obtain ⟨p, hp, hfst⟩ := List.mem_map.1 hmem
    have := (rankedFrom_fst_bounds (n + 1) t p hp).1
    omega

/-- `DISTINCT ON` keeps a subsequence of its input. -/
theorem distinctAux_sublist (seen : List (Option String)) (l : List Row) :
    List.Sublist (distinctAux seen l) l := by
  induction l generalizing seen with
  | nil => exact List.Sublist.refl _
  | cons a t ih =>
    by_cases h : a.product_name ∈ seen
    · simp only [distinctAux, if_pos h]
      exact (ih seen).cons a
    · simp only [distinctAux, if_neg h]
      exact (ih _).cons₂ a

/-- `DISTINCT ON` output has pairwise-distinct product names, none of them
previously seen. -/
theorem distinctAux_spec (seen : List (Option String)) (l : List Row) :
    ((distinctAux seen l).map Row.product_name).Nodup ∧
      ∀ r ∈ distinctAux seen l, r.product_name ∉ seen := by
  induction l generalizing seen with
  | nil => exact ⟨List.nodup_nil, fun r hr => absurd hr (List.not_mem_nil r)⟩
  | cons a t ih =>
    by_cases h : a.product_name ∈ seen
    · simpa only [distinctAux, if_pos h] using ih seen
    · have ihx := ih (a.product_name :: seen)
      simp only [distinctAux, if_neg h, List.map_cons]
      constructor
      · refine List.nodup_cons.2 ⟨?_, ihx.1⟩
        intro hmem
        obtain ⟨r, hr, heq⟩ := List.mem_map.1 hmem
        exact ihx.2 r hr (heq ▸ List.mem_cons_self _ _)
      · intro r hr
        rcases List.mem_cons.1 hr with rfl | hmem
        · exact h
        · exact fun hs => ihx.2 r hmem (List.mem_cons_of_mem _ hs)

/-- Inserting into the ordered list is a permutation of consing. -/
theorem insertLe_perm (a : Row) (l : List Row) : (insertLe a l).Perm (a :: l) := by
  induction l with
  | nil => exact List.Perm.refl _
  | cons b t ih =>
    by_cases h : strLe a.unique_id b.unique_id
    · simp only [insertLe, if_pos h]
      exact List.Perm.refl _
    · simp only [insertLe, if_neg h]
      exact (ih.cons b).trans (List.Perm.swap a b t)

/-- The rank ordering permutes the filtered rows. -/
theorem orderByUid_perm (l : List Row) : (orderByUid l).Perm l := by
  induction l with
  | nil => exact List.Perm.refl _
  | cons a t ih => exact (insertLe_perm a (orderByUid t)).trans (ih.cons a)

/-- The returned window is a subsequence of the ranked row order. -/
theorem planResult_sublist (cmap : List (String × List String))
    (pdate : String → Option (ℤ × ℤ)) (m : MemoryView) (cat : List Row) (u : ℚ) :
    List.Sublist (planResult cmap pdate m cat u) (sortedRows cmap pdate m cat) := by
  simp only [planResult]
  conv_rhs => rw [← rankedFrom_map_snd 0 (sortedRows cmap pdate m cat)]
  exact List.Sublist.map Prod.snd (List.filter_sublist _)

/-- Every returned row satisfies the compiled filter. -/
theorem mem_planResult_filter (cmap : List (String × List String))
    (pdate : String → Option (ℤ × ℤ)) (m : MemoryView) (cat : List Row) (u : ℚ)
    (row : Row) (h : row ∈ planResult cmap pdate m cat u) :
    memFilter cmap pdate m row = .tt := by
  have h1 : row ∈ sortedRows cmap pdate m cat :=
    (planResult_sublist cmap pdate m cat u).subset h
  rw [sortedRows] at h1
  have h2 : row ∈ filteredRows cmap pdate m cat :=
    (orderByUid_perm (filteredRows cmap pdate m cat)).mem_iff.1 h1
  rw [filteredRows, distinctOnName] at h2
  have h3 : row ∈ cat.filter (fun r => decide (memFilter cmap pdate m r = SqlB.tt)) :=
    (distinctAux_sublist [] _).subset h2
  have h4 := (List.mem_filter.1 h3).2
  simpa using h4

/-- The executable offset is the floor of `u * GREATEST(0, c - 6)`. -/
theorem randOffset_eq (c : ℕ) (u : ℚ) :
    randOffset c u = ⌊u * ((max 0 ((c : ℤ) - 6) : ℤ) : ℚ)⌋ := by
  have h1 : u * ((max 0 ((c : ℤ) - 6) : ℤ) : ℚ) =
      ((u.num * max 0 ((c : ℤ) - 6) : ℤ) : ℚ) / ((u.den : ℕ) : ℚ) := by
    conv_lhs => rw [← Rat.num_div_den u]
    push_cast
    ring
  rw [randOffset, h1, Rat.floor_intCast_div_natCast]

/-- A rank window `(r, r+6]` over distinct ranks holds at most six
entries. -/
theorem filter_window_length_le {α : Type} (l : List (ℕ × α)) (r : ℤ)
    (hnd : (l.map Prod.fst).Nodup) :
    (l.filter (fun p => decide (r < (p.1 : ℤ)) && decide ((p.1 : ℤ) ≤ r + 6))).length ≤ 6 := by
  set F := l.filter (fun p => decide (r < (p.1 : ℤ)) && decide ((p.1 : ℤ) ≤ r + 6)) with hF
  have hsub : List.Sublist (F.map Prod.fst) (l.map Prod.fst) :=
    List.Sublist.map Prod.fst (List.filter_sublist _)
  have hndF : (F.map Prod.fst).Nodup := hsub.nodup hnd
  have hndG : ((F.map Prod.fst).map (fun n : ℕ => (n : ℤ))).Nodup :=
    hndF.map (fun a b hab => by exact_mod_cast hab)
  have hsubset : ((F.map Prod.fst).map (fun n : ℕ => (n : ℤ))).toFinset ⊆
      Finset.Ioc r (r + 6) := by
    intro x hx
    rw [List.mem_toFinset] at hx
    obtain ⟨n, hn, rfl⟩ := List.mem_map.1 hx
    obtain ⟨p, hp, rfl⟩ := List.mem_map.1 hn
    have hpred := List.of_mem_filter hp
    rw [Bool.and_eq_true] at hpred
    exact Finset.mem_Ioc.2 ⟨of_decide_eq_true hpred.1, of_decide_eq_true hpred.2⟩
  have hcard : ((F.map Prod.fst).map (fun n : ℕ => (n : ℤ))).length ≤ 6 := by
    rw [← List.toFinset_card_of_nodup hndG]
    have := Finset.card_le_card hsubset
    rwa [Int.card_Ioc, show (r + 6 - r).toNat = 6 by omega] at this
  simpa using hcard

/-- C6: for every memory snapshot, catalog and random draw, the query plan
returns at most six rows, each satisfying the compiled WHERE filter,
with pairwise-distinct product names (at most one variant per product). -/
theorem claimC6 (cmap : List (String × List String))
    (pdate : String → Option (ℤ × ℤ)) (m : MemoryView) (cat : List Row) (u : ℚ) :
    (planResult cmap pdate m cat u).length ≤ 6 ∧
    (∀ row ∈ planResult cmap pdate m cat u, memFilter cmap pdate m row = .tt) ∧
    ((planResult cmap pdate m cat u).map Row.product_name).Nodup := by
  refine ⟨?_, fun row hr => mem_planResult_filter cmap pdate m cat u row hr, ?_⟩
  · simp only [planResult, List.length_map]
    exact filter_window_length_le _ _ (rankedFrom_fst_nodup 0 _)
  · have hnd_f : ((filteredRows cmap pdate m cat).map Row.product_name).Nodup :=
      (distinctAux_spec [] _).1
    have hperm := (orderByUid_perm (filteredRows cmap pdate m cat)).map Row.product_name
    have hnd_s : ((sortedRows cmap pdate m cat).map Row.product_name).Nodup :=
      hperm.nodup_iff.2 hnd_f
    exact ((planResult_sublist cmap pdate m cat u).map Row.product_name).nodup hnd_s

/-- C6 witness: the plan applied to a one-row catalog returns only rows
passing the (empty, hence true) filter. -/
theorem claimC6_witness :
    memFilter [] (fun _ => Option.none) memBase rowBase = .tt :=
  (claimC6 [] (fun _ => Option.none) memBase [rowBase] 0).2.1 rowBase (by decide)

/-!
## Claim C3 — the randomized window
-/

/-- C3: the claim states the offset can take every value in
`[0, max(0, C−6)]`.  With `random() ∈ [0, 1)`, the value `max(0, C−6)`
itself — in the claimed closed interval at `C = 7` — is never attained:
`FLOOR(u * 1) = 0` for every `u < 1`. -/
theorem claimC3_counterexample :
    (0 ≤ (1 : ℤ) ∧ (1 : ℤ) ≤ max 0 ((7 : ℤ) - 6)) ∧
    ¬ ∃ u : ℚ, 0 ≤ u ∧ u < 1 ∧ randOffset 7 u = 1 := by
  refine ⟨⟨by norm_num, by norm_num⟩, ?_⟩
  rintro ⟨u, h0, h1, he⟩
  rw [randOffset_eq] at he
  have h7 : max 0 (((7 : ℕ) : ℤ) - 6) = 1 := by norm_num
  rw [h7] at he
  simp only [Int.cast_one, mul_one] at he
  have hz : ⌊u⌋ = 0 := Int.floor_eq_zero_iff.2 ⟨h0, h1⟩
  rw [hz] at he
  cases he

/-- C3 (amended): over `random() ∈ [0, 1)` the offset takes exactly the
integer values in the closed interval `[0, max(0, C−7)]` (one less at the
top than the claim states, so the highest-ranked row is unreachable when
`C > 6`); the returned rows are exactly those whose rank lies in
`(r, r+6]`; and when `C ≤ 6` the offset degenerates to `0` and the plan
returns all `C` rows. -/
theorem claimC3_amended :
    (∀ (c : ℕ) (u : ℚ), 0 ≤ u → u < 1 →
      0 ≤ randOffset c u ∧ randOffset c u ≤ max 0 ((c : ℤ) - 7)) ∧
    (∀ (c : ℕ) (k : ℤ), 0 ≤ k → k ≤ max 0 ((c : ℤ) - 7) →
      ∃ u : ℚ, 0 ≤ u ∧ u < 1 ∧ randOffset c u = k) ∧
    (∀ (cmap : List (String × List String)) (pdate : String → Option (ℤ × ℤ))
      (m : MemoryView) (cat : List Row) (u : ℚ) (row : Row),
      row ∈ planResult cmap pdate m cat u ↔
        ∃ rn : ℕ, (rn, row) ∈ rankedFrom 0 (sortedRows cmap pdate m cat) ∧
          randOffset (sortedRows cmap pdate m cat).length u < (rn : ℤ) ∧
          (rn : ℤ) ≤ randOffset (sortedRows cmap pdate m cat).length u + 6) ∧
    (∀ (cmap : List (String × List String)) (pdate : String → Option (ℤ × ℤ))
      (m : MemoryView) (cat : List Row) (u : ℚ), 0 ≤ u → u < 1 →
      (filteredRows cmap pdate m cat).length ≤ 6 →
      planResult cmap pdate m cat u = sortedRows cmap pdate m cat) := by
  refine ⟨?_, ?_, ?_, ?_⟩
  · intro c u h0 h1
    rw [randOffset_eq]
    have hM0 : (0 : ℤ) ≤ max 0 ((c : ℤ) - 6) := le_max_left 0 _
    constructor
    · refine Int.le_floor.2 ?_
      push_cast
      exact mul_nonneg h0 (by exact_mod_cast hM0)
    · by_cases hc : (c : ℤ) ≤ 6
      · have hMz : max 0 ((c : ℤ) - 6) = 0 := max_eq_left (by omega)
        rw [hMz]
        simp only [Int.cast_zero, mul_zero, Int.floor_zero]
        exact le_max_left 0 _
      · push_neg at hc
        have hMe : max 0 ((c : ℤ) - 6) = (c : ℤ) - 6 := max_eq_right (by omega)
        have hden : (0 : ℚ) < (((c : ℤ) - 6 : ℤ) : ℚ) := by
          exact_mod_cast show (0 : ℤ) < (c : ℤ) - 6 by omega
        have hlt : u * ((((c : ℤ) - 6 : ℤ)) : ℚ) < (((c : ℤ) - 6 : ℤ) : ℚ) := by
          calc u * ((((c : ℤ) - 6 : ℤ)) : ℚ) < 1 * ((((c : ℤ) - 6 : ℤ)) : ℚ) :=
                mul_lt_mul_of_pos_right h1 hden
            _ = (((c : ℤ) - 6 : ℤ) : ℚ) := one_mul _
        have hfl : ⌊u * ((max 0 ((c : ℤ) - 6) : ℤ) : ℚ)⌋ < (c : ℤ) - 6 := by
          rw [hMe]
          exact Int.floor_lt.2 hlt
        have hmax7 : max 0 ((c : ℤ) - 7) = (c : ℤ) - 7 := max_eq_right (by omega)
        omega
  · intro c k h0 h1
    by_cases hM : max 0 ((c : ℤ) - 6) = 0
    · have hk : k = 0 := by
        have h76 : max 0 ((c : ℤ) - 7) ≤ max 0 ((c : ℤ) - 6) :=
          max_le_max (le_refl 0) (by omega)
        omega
      refine ⟨0, le_refl 0, by norm_num, ?_⟩
      rw [randOffset_eq, hM]
      simp [hk]
    · have hMpos : 0 < max 0 ((c : ℤ) - 6) :=
        lt_of_le_of_ne (le_max_left _ _) (Ne.symm hM)
      have hc6 : (0 : ℤ) < (c : ℤ) - 6 := by
        rcases max_choice 0 ((c : ℤ) - 6) with hch | hch
        · rw [hch] at hMpos; omega
        · rw [hch] at hMpos; exact hMpos
      have hMe : max 0 ((c : ℤ) - 6) = (c : ℤ) - 6 := max_eq_right (by omega)
      have hk6 : k < (c : ℤ) - 6 :=
        lt_of_le_of_lt h1 (max_lt (by omega) (by omega))
      have hden : (0 : ℚ) < (((c : ℤ) - 6 : ℤ) : ℚ) := by exact_mod_cast hc6
      refine ⟨(k : ℚ) / (((c : ℤ) - 6 : ℤ) : ℚ), ?_, ?_, ?_⟩
      · exact div_nonneg (by exact_mod_cast h0) (le_of_lt hden)
      · rw [div_lt_one hden]
        exact_mod_cast hk6
      · rw [randOffset_eq, hMe, div_mul_cancel₀ _ (ne_of_gt hden), Int.floor_intCast]
  · intro cmap pdate m cat u row
    simp only [planResult]
    rw [List.mem_map]
    constructor
    · rintro ⟨p, hp, rfl⟩
      rw [List.mem_filter] at hp
      obtain ⟨hmem, hpred⟩ := hp
      rw [Bool.and_eq_true] at hpred
      refine ⟨p.1, ?_, of_decide_eq_true hpred.1, of_decide_eq_true hpred.2⟩
      rw [Prod.mk.eta]
      exact hmem
    · rintro ⟨rn, hmem, hlt, hle⟩
      refine ⟨(rn, row), ?_, rfl⟩
      rw [List.mem_filter]
      refine ⟨hmem, ?_⟩
      rw [Bool.and_eq_true]
      exact ⟨decide_eq_true hlt, decide_eq_true hle⟩
  · intro cmap pdate m cat u h0 h1 hlen
    have hlen_s : (sortedRows cmap pdate m cat).length ≤ 6 := by
      rw [sortedRows, (orderByUid_perm _).length_eq]
      exact hlen
    have hr : randOffset (sortedRows cmap pdate m cat).length u = 0 := by
      rw [randOffset_eq]
      have hMz : max 0 (((sortedRows cmap pdate m cat).length : ℤ) - 6) = 0 :=
        max_eq_left (by omega)
      rw [hMz]
      simp
    simp only [planResult]
    rw [hr]
    rw [List.filter_eq_self.2 ?_, rankedFrom_map_snd]
    intro p hp
    have hb := rankedFrom_fst_bounds 0 _ p hp
    rw [Bool.and_eq_true]
    refine ⟨decide_eq_true ?_, decide_eq_true ?_⟩ <;> omega

/-- C3 witness: the amended bounds at `C = 13` and `u = 0`, attainability of
the top offset `6 = 13 − 7`, and full return of a one-row filtered set. -/
theorem claimC3_witness :
    (0 ≤ randOffset 13 0 ∧ randOffset 13 0 ≤ max 0 ((13 : ℤ) - 7)) ∧
    (∃ u : ℚ, 0 ≤ u ∧ u < 1 ∧ randOffset 13 u = 6) ∧
    planResult [] (fun _ => Option.none) memBase [rowBase] 0 =
      sortedRows [] (fun _ => Option.none) memBase [rowBase] :=
  ⟨claimC3_amended.1 13 0 (le_refl 0) (by norm_num),
    claimC3_amended.2.1 13 6 (by norm_num) (by norm_num),
    claimC3_amended.2.2.2 [] _ memBase [rowBase] 0 (le_refl 0) (by norm_num) (by decide)⟩

/-!
## Claim C10 — exclusions and SQL NULL
-/

/-- An `AND` with a non-true left conjunct is not true. -/
theorem sAnd_ne_tt_left (a b : SqlB) (h : a ≠ .tt) : sAnd a b ≠ .tt :=
  fun hc => h ((sAnd_eq_tt a b).1 hc).1

/-- An `AND` with a non-true right conjunct is not true. -/
theorem sAnd_ne_tt_right (a b : SqlB) (h : b ≠ .tt) : sAnd a b ≠ .tt :=
  fun hc => h ((sAnd_eq_tt a b).1 hc).2

/-- The exclude-occasion clause is one of the generated WHERE conditions. -/
theorem exclOcc_mem_conditions (cmap : List (String × List String))
    (pdate : String → Option (ℤ × ℤ)) (m : MemoryView) (row : Row)
    (h : m.exclude_occasions ≠ []) :
    sAndJoin (m.exclude_occasions.map (fun o => notLikeC row.holiday_occasion (lowerStr o))) ∈
      conditionsVal cmap pdate m row := by
  have hb : m.exclude_occasions.isEmpty = false := by
    cases hm : m.exclude_occasions with
    | nil => exact absurd hm h
    | cons a t => rfl
  have hx : sAndJoin
      (m.exclude_occasions.map (fun o => notLikeC row.holiday_occasion (lowerStr o))) ∈
      exclOccasionsPiece m row := by
    simp [exclOccasionsPiece, hb]
  unfold conditionsVal
  simp only [List.mem_append]
  tauto

/-- The exclude-flower-type clause is one of the generated WHERE
conditions. -/
theorem exclFlower_mem_conditions (cmap : List (String × List String))
    (pdate : String → Option (ℤ × ℤ)) (m : MemoryView) (row : Row)
    (h : m.exclude_flower_types ≠ []) :
    sAndJoin (m.exclude_flower_types.map (exclFlowerTypeCond row)) ∈
      conditionsVal cmap pdate m row := by
  have hb : m.exclude_flower_types.isEmpty = false := by
    cases hm : m.exclude_flower_types with
    | nil => exact absurd hm h
    | cons a t => rfl
  have hx : sAndJoin (m.exclude_flower_types.map (exclFlowerTypeCond row)) ∈
      exclFlowerPiece m row := by
    simp [exclFlowerPiece, hb]
  unfold conditionsVal
  simp only [List.mem_append]
  tauto

set_option maxRecDepth 16384 in
/-- C10: under three-valued NULL semantics the exclusion clauses silently
exclude NULL rows — with a non-empty `exclude_occasions` a row whose
occasion column is NULL is never returned (`NOT LIKE` on NULL is not true),
and with a non-empty `exclude_flower_types` a row with NULL in any of the
four searched text columns is never returned; the generated exclusion
fragments carry no `IS NOT NULL` handling, unlike the positive occasion
clause. -/
theorem claimC10 (cmap : List (String × List String))
    (pdate : String → Option (ℤ × ℤ)) (m : MemoryView) (cat : List Row) (u : ℚ)
    (row : Row) :
    (m.exclude_occasions ≠ [] → row.holiday_occasion = Option.none →
      row ∉ planResult cmap pdate m cat u) ∧
    (m.exclude_flower_types ≠ [] →
      (row.group_category = Option.none ∨ row.recipe_metafield = Option.none ∨
        row.product_type_all_flowers = Option.none ∨ row.product_name = Option.none) →
      row ∉ planResult cmap pdate m cat u) ∧
    (strHas (exclOccasionCondStr "wedding") "IS NOT NULL" = false ∧
      strHas (exclFlowerTypeCondStr "rose") "IS NOT NULL" = false ∧
      strHas (buildSqlFromMemory [] (fun _ => Option.none)
        { memBase with occasions := ["wedding"] }) "IS NOT NULL" = true ∧
      strHas (buildSqlFromMemory [] (fun _ => Option.none)
        { memBase with exclude_occasions := ["wedding"] }) "IS NOT NULL" = false) := by
  refine ⟨?_, ?_, by decide⟩
  · intro hne hnull hmem
    have hf := mem_planResult_filter cmap pdate m cat u row hmem
    rw [memFilter, sAndJoin_eq_tt] at hf
    have hx := hf _ (exclOcc_mem_conditions cmap pdate m row hne)
    rw [sAndJoin_eq_tt] at hx
    obtain ⟨o, ho⟩ := List.exists_mem_of_ne_nil _ hne
    have hval := hx _ (List.mem_map.2 ⟨o, ho, rfl⟩)
    rw [hnull] at hval
    simp [notLikeC, likeC, sNot] at hval
  · intro hne hcol hmem
    have hf := mem_planResult_filter cmap pdate m cat u row hmem
    rw [memFilter, sAndJoin_eq_tt] at hf
    have hx := hf _ (exclFlower_mem_conditions cmap pdate m row hne)
    rw [sAndJoin_eq_tt] at hx
    obtain ⟨f, hfm⟩ := List.exists_mem_of_ne_nil _ hne
    have hval := hx _ (List.mem_map.2 ⟨f, hfm, rfl⟩)
    revert hval
    unfold exclFlowerTypeCond
    rcases hcol with hc | hc | hc | hc
    · rw [hc]
      exact fun hv => sAnd_ne_tt_left _ _ (by simp [notLikeC, likeC, sNot]) hv
    · rw [hc]
      exact fun hv => sAnd_ne_tt_right _ _
        (sAnd_ne_tt_left _ _ (by simp [notLikeC, likeC, sNot])) hv
    · rw [hc]
      exact fun hv => sAnd_ne_tt_right _ _
        (sAnd_ne_tt_right _ _
          (sAnd_ne_tt_left _ _ (by simp [notLikeC, likeC, sNot]))) hv
    · rw [hc]
      exact fun hv => sAnd_ne_tt_right _ _
        (sAnd_ne_tt_right _ _
          (sAnd_ne_tt_right _ _ (by simp [notLikeC, likeC, sNot]))) hv

/-- C10 witness: a catalog row with a NULL occasion column is dropped by an
occasion exclusion even though it trivially avoids the excluded value. -/
theorem claimC10_witness :
    rowBase ∉ planResult [] (fun _ => Option.none)
      { memBase with exclude_occasions := ["wedding"] } [rowBase] 0 :=
  (claimC10 [] (fun _ => Option.none) { memBase with exclude_occasions := ["wedding"] }
    [rowBase] 0 rowBase).1 (by simp) rfl

/-!
## Claim C9 — quote escaping in the generated SQL text
-/

/-- A value containing a single quote (`o'hara`), built explicitly. -/
def qname : String := "o" ++ sq ++ "hara"

set_option maxRecDepth 16384 in
/-- C9: the generated SQL escapes single quotes (doubling them) only in
colors, exclude_colors, occasions and exclude_occasions values; flower-type,
product-type and effort-level values are spliced verbatim, so a quoted
flower type yields a query string with that quote unescaped inside a string
literal (and no doubled quote anywhere in the query). -/
theorem claimC9 :
    occasionCondStr qname =
      "LOWER(holiday_occasion) LIKE " ++ sq ++ "%o" ++ sq ++ sq ++ "hara%" ++ sq ∧
    exclOccasionCondStr qname =
      "LOWER(holiday_occasion) NOT LIKE " ++ sq ++ "%o" ++ sq ++ sq ++ "hara%" ++ sq ∧
    colorFallbackStr qname =
      "LOWER(colors_raw) LIKE " ++ sq ++ "%o" ++ sq ++ sq ++ "hara%" ++ sq ∧
    exclColorFallbackStr qname =
      "LOWER(colors_raw) NOT LIKE " ++ sq ++ "%o" ++ sq ++ sq ++ "hara%" ++ sq ∧
    strHas (flowerTypeCondStr qname) (sq ++ "%o" ++ sq ++ "hara%" ++ sq) = true ∧
    strHas (flowerTypeCondStr qname) (sq ++ sq) = false ∧
    strHas (exclFlowerTypeCondStr qname) (sq ++ "%o" ++ sq ++ "hara%" ++ sq) = true ∧
    strHas (exclFlowerTypeCondStr qname) (sq ++ sq) = false ∧
    strHas (productCondStr qname) (sq ++ "%o" ++ sq ++ "hara%" ++ sq) = true ∧
    strHas (productCondStr qname) (sq ++ sq) = false ∧
    strHas (exclProductCondStr qname) (sq ++ "%o" ++ sq ++ "hara%" ++ sq) = true ∧
    strHas (exclProductCondStr qname) (sq ++ sq) = false ∧
    effortCondStr ("D" ++ sq ++ "Arcy") =
      "diy_level = " ++ sq ++ "D" ++ sq ++ "Arcy" ++ sq ++
        " AND diy_level IS NOT NULL" ∧
    exclEffortCondStr ("D" ++ sq ++ "Arcy") =
      "diy_level != " ++ sq ++ "D" ++ sq ++ "Arcy" ++ sq ∧
    strHas (buildSqlFromMemory [] (fun _ => Option.none)
      { memBase with flower_types := [qname] }) (sq ++ "%o" ++ sq ++ "hara%" ++ sq) = true ∧
    strHas (buildSqlFromMemory [] (fun _ => Option.none)
      { memBase with flower_types := [qname] }) (sq ++ sq) = false := by
  decide

end V6
